import Mathlib

/-!
Shallow embedding of the order/payment reconciliation engine of the
ripenred backend (order routes, PhonePe service, Razorpay webhook,
auto-cancel service, refund routes), together with theorems settling the
claims about it.  Money amounts are modelled as `Int` (the code uses JS
numbers; every claim only involves integral amounts), identifiers as
`String`/`Nat`, and the Mongo collections as Lean lists.  External
gateway calls are oracle parameters of the handler functions.
-/

namespace RipenRed

/-- paymentStatus enum of the Order schema. -/
inductive PaymentStatus
  | Pending
  | Paid
  | Failed
  | Refunded
  deriving DecidableEq, Repr

/-- orderStatus enum of the Order schema. -/
inductive OrderStatus
  | Pending
  | Processing
  | Shipped
  | Delivered
  | Canceled
  deriving DecidableEq, Repr

/-- A Product document: only the fields the order engine reads. -/
structure Product where
  id : Nat
  name : String
  price : Int
  stock : Int
  deriving DecidableEq, Repr

/-- One entry of Order.orderItems: the snapshot pushed in create-order. -/
structure OrderItem where
  productId : Nat
  name : String
  price : Int
  quantity : Int
  subtotal : Int
  deriving DecidableEq, Repr

/-- An Order document: the fields the claims are about. -/
structure Order where
  orderId : String
  idempotencyKey : String
  paymentMethod : String
  orderItems : List OrderItem
  totalPrice : Int
  discountAmount : Int
  shippingCharges : Int
  finalTotal : Int
  orderStatus : OrderStatus
  paymentStatus : PaymentStatus
  transactionId : Option String
  merchantTransactionId : Option String
  customerEmail : Option String
  partialRefunds : List Int
  totalRefunded : Int
  createdAt : Int
  deriving DecidableEq, Repr

/-- Log events the claims mention (auto-cancel sweep audit trail). -/
inductive LogEvent
  | autoCancelled (orderId : String)
  | autoCancelFailed (orderId : String)
  | autoCancelSummary (totalFound cancelled errors : Nat)
  deriving DecidableEq, Repr

/-- The persistent state: Product and Order collections, plus the
observable side effects the claims talk about (customer confirmation
emails sent, audit log entries). -/
structure DB where
  products : List Product
  orders : List Order
  emails : List String
  log : List LogEvent
  deriving DecidableEq, Repr

/-- Product.findById. -/
def findProduct (ps : List Product) (pid : Nat) : Option Product :=
  ps.find? (fun p => decide (p.id = pid))

/-- product.save(): write back a (possibly modified) product document. -/
def saveProduct (ps : List Product) (p : Product) : List Product :=
  ps.map (fun q => if q.id = p.id then p else q)

/-- Order.findOne by orderId. -/
def findOrder (os : List Order) (oid : String) : Option Order :=
  os.find? (fun o => decide (o.orderId = oid))

/-- Order.findByIdAndUpdate / order.save(): replace the document with the
given orderId. -/
def saveOrder (os : List Order) (o : Order) : List Order :=
  os.map (fun q => if q.orderId = o.orderId then o else q)

/-- restoreStock (order routes): for each item, look the product up and,
when it still exists, add the quantity back; a missing product is
silently skipped. -/
def restoreStock (ps : List Product) (items : List OrderItem) : List Product :=
  items.foldl (fun acc item =>
    match findProduct acc item.productId with
    | some p => saveProduct acc { p with stock := p.stock + item.quantity }
    | none => acc) ps

/-- The stock-restoration loop of AutoCancelService.cancelOrder: same
per-item lookup, skip-if-missing semantics as restoreStock. -/
def autoCancelRestoreStock (ps : List Product) (items : List OrderItem) : List Product :=
  items.foldl (fun acc item =>
    match findProduct acc item.productId with
    | some p => saveProduct acc { p with stock := p.stock + item.quantity }
    | none => acc) ps

/-- The stock-restoration loop of POST /refund/full: same per-item
lookup, skip-if-missing semantics as restoreStock. -/
def refundRestoreStock (ps : List Product) (items : List OrderItem) : List Product :=
  items.foldl (fun acc item =>
    match findProduct acc item.productId with
    | some p => saveProduct acc { p with stock := p.stock + item.quantity }
    | none => acc) ps

/-- Total quantity the given items carry for one product id. -/
def qtySum (items : List OrderItem) (pid : Nat) : Int :=
  (items.map (fun it => if it.productId = pid then it.quantity else 0)).sum

/-- Total quantity a list of orders carries for one product id. -/
def ordersQtySum (os : List Order) (pid : Nat) : Int :=
  (os.map (fun o => qtySum o.orderItems pid)).sum


/-- All orders with the given orderId are Canceled/Failed. -/
def cancelledAt (x : String) (os : List Order) : Prop :=
  ∀ q ∈ os, q.orderId = x →
    q.orderStatus = OrderStatus.Canceled ∧ q.paymentStatus = PaymentStatus.Failed

/-- The audit-log entry one sweep iteration produces for one order. -/
def sweepLogEntry (fails : List String) (o : Order) : LogEvent :=
  if o.orderId ∈ fails then LogEvent.autoCancelFailed o.orderId
  else LogEvent.autoCancelled o.orderId

/-! ## POST /create-order -/

/-- One cartItems entry of the create-order request body. -/
structure CartItem where
  productId : Nat
  quantity : Int
  deriving DecidableEq, Repr

/-- Total quantity a cart carries for one product id. -/
def cartQty (cart : List CartItem) (pid : Nat) : Int :=
  (cart.map (fun c => if c.productId = pid then c.quantity else 0)).sum

/-- The parts of the create-order request the engine reads. -/
structure CreateOrderRequest where
  baseKey : Option String
  paymentMethod : String
  cartItems : List CartItem
  totalPrice : Int
  discountAmount : Int
  shippingCharges : Int
  customerEmail : Option String
  deriving DecidableEq, Repr

/-- Outcome of phonePeService.createPaymentOrder raced against the
15-second client-side timeout. -/
inductive PhonePeCreateResult
  | ok (txnId : String) (paymentUrl : String) (merchantOrderId : String)
  | timeout
  | failure (msg : String)
  deriving DecidableEq, Repr

/-- Outcome of razorpay.orders.create. -/
inductive RazorpayCreateResult
  | ok (razorpayOrderId : String)
  | failure (msg : String)
  deriving DecidableEq, Repr

/-- The create-order responses distinguished by the claims. -/
inductive CreateOrderResponse
  | badRequest (msg : String)
  | duplicate (orderId : String) (status : OrderStatus)
  | notFound (productId : Nat)
  | insufficientStock (name : String)
  | razorpayCheckout (razorpayOrderId : String) (orderId : String)
  | phonePeExisting (orderId : String)
  | phonePeCheckout (orderId : String) (paymentUrl : String)
  | phonePeTimeoutRedirect (orderId : String) (redirectTo : String)
  | phonePeError (msg : String)
  | created (orderId : String)
  | serverError (msg : String)
  deriving DecidableEq, Repr

/-- True of keys the cleanup regex
`^(phonepe|razorpay)_<base>$` matches. -/
def matchesBaseKey (key base : String) : Prop :=
  key = "phonepe_" ++ base ∨ key = "razorpay_" ++ base

instance (key base : String) : Decidable (matchesBaseKey key base) := by
  unfold matchesBaseKey; infer_instance

/-- The Order.find condition of the cleanup step: same base caller key
(either gateway prefix) and still Pending/Pending. -/
def cancelTarget (base : String) (o : Order) : Bool :=
  decide (matchesBaseKey o.idempotencyKey base
    ∧ o.paymentStatus = PaymentStatus.Pending
    ∧ o.orderStatus = OrderStatus.Pending)

/-- The Order.findOne condition of the duplicate check: same composite
idempotency key. -/
def keyPred (k : String) (o : Order) : Bool :=
  decide (o.idempotencyKey = k)

/-- The cleanup step of create-order: find all orders whose
idempotencyKey matches `^(phonepe|razorpay)_<base>$` and are still
Pending/Pending, restore their stock and mark them Canceled/Failed. -/
def cancelPendingForBaseKey (db : DB) (base : String) : DB :=
  let targets := db.orders.filter (cancelTarget base)
  { db with
    products := targets.foldl (fun ps o => restoreStock ps o.orderItems) db.products
    orders := db.orders.map (fun o =>
      if cancelTarget base o then
        { o with orderStatus := OrderStatus.Canceled, paymentStatus := PaymentStatus.Failed }
      else o) }

/-- The stock-validation loop of create-order: per cart item, the
product must exist and have enough stock; for gateway methods the stock
is only checked, for other methods it is deducted inside the session. -/
def buildOrderItems (isGateway : Bool) (ps : List Product) :
    List CartItem → Except CreateOrderResponse (List OrderItem × List Product)
  | [] => Except.ok ([], ps)
  | item :: rest =>
    match findProduct ps item.productId with
    | none => Except.error (CreateOrderResponse.notFound item.productId)
    | some p =>
      if p.stock < item.quantity then
        Except.error (CreateOrderResponse.insufficientStock p.name)
      else
        let oi : OrderItem :=
          { productId := p.id, name := p.name, price := p.price,
            quantity := item.quantity, subtotal := p.price * item.quantity }
        let ps' := if isGateway then ps
          else saveProduct ps { p with stock := p.stock - item.quantity }
        match buildOrderItems isGateway ps' rest with
        | Except.error e => Except.error e
        | Except.ok (ois, psOut) => Except.ok (oi :: ois, psOut)

/-- The stock-deduction loop of the PhonePe branch, run after a
successful createPaymentOrder: deduct each item's quantity when the
product still exists (no stock re-check). -/
def phonePeDeductStock (ps : List Product) (items : List OrderItem) : List Product :=
  items.foldl (fun acc item =>
    match findProduct acc item.productId with
    | some p => saveProduct acc { p with stock := p.stock - item.quantity }
    | none => acc) ps

/-- Build the Order document saved by the PhonePe branch / the
deferred-settlement branch / the PhonePe-timeout catch. -/
def mkOrder (r : CreateOrderRequest) (orderId composite : String)
    (items : List OrderItem) (os : OrderStatus) (pay : PaymentStatus)
    (txn merchantTxn : Option String) (now : Int) : Order :=
  { orderId := orderId
    idempotencyKey := composite
    paymentMethod := r.paymentMethod
    orderItems := items
    totalPrice := r.totalPrice
    discountAmount := r.discountAmount
    shippingCharges := r.shippingCharges
    finalTotal := r.totalPrice - r.discountAmount + r.shippingCharges
    orderStatus := os
    paymentStatus := pay
    transactionId := txn
    merchantTransactionId := merchantTxn
    customerEmail := r.customerEmail
    partialRefunds := []
    totalRefunded := 0
    createdAt := now }

/-- POST /create-order.  `newOrderId` stands for generateOrderId(), `pp`
and `rz` for the gateway-call outcomes, `now` for the clock. -/
def createOrder (db : DB) (r : CreateOrderRequest) (newOrderId : String)
    (pp : PhonePeCreateResult) (rz : RazorpayCreateResult) (now : Int) :
    DB × CreateOrderResponse :=
  match r.baseKey with
  | none => (db, CreateOrderResponse.badRequest "Idempotency key is required to prevent duplicate orders.")
  | some base =>
    let composite := r.paymentMethod ++ "_" ++ base
    let db1 := cancelPendingForBaseKey db base
    match db1.orders.find? (keyPred composite) with
    | some existing => (db1, CreateOrderResponse.duplicate existing.orderId existing.orderStatus)
    | none =>
      if r.cartItems.isEmpty then
        (db1, CreateOrderResponse.badRequest "Cart is empty.")
      else
        let isGateway := r.paymentMethod = "razorpay" ∨ r.paymentMethod = "phonepe"
        match buildOrderItems (decide isGateway) db1.products r.cartItems with
        | Except.error resp => (db1, resp)
        | Except.ok (orderItems, sessionProducts) =>
          if r.paymentMethod = "razorpay" then
            match rz with
            | RazorpayCreateResult.ok rzId =>
              ({ db1 with products := sessionProducts },
               CreateOrderResponse.razorpayCheckout rzId newOrderId)
            | RazorpayCreateResult.failure m => (db1, CreateOrderResponse.serverError m)
          else if r.paymentMethod = "phonepe" then
            match db1.orders.find? (fun o =>
                decide (o.orderId = newOrderId ∨ o.idempotencyKey = composite)) with
            | some existing => (db1, CreateOrderResponse.phonePeExisting existing.orderId)
            | none =>
              match pp with
              | PhonePeCreateResult.ok txnId payUrl mOrderId =>
                let ps := phonePeDeductStock sessionProducts orderItems
                let order := mkOrder r newOrderId composite orderItems
                  OrderStatus.Pending PaymentStatus.Pending (some txnId) (some mOrderId) now
                ({ db1 with products := ps, orders := db1.orders ++ [order] },
                 CreateOrderResponse.phonePeCheckout newOrderId payUrl)
              | PhonePeCreateResult.timeout =>
                let order := mkOrder r newOrderId composite orderItems
                  OrderStatus.Canceled PaymentStatus.Failed none none now
                ({ db1 with orders := db1.orders ++ [order] },
                 CreateOrderResponse.phonePeTimeoutRedirect newOrderId
                   ("/store/order-confirmation.html?error=phonepe_timeout&orderId=" ++ newOrderId))
              | PhonePeCreateResult.failure m => (db1, CreateOrderResponse.phonePeError m)
          else
            let order := mkOrder r newOrderId composite orderItems
              OrderStatus.Pending PaymentStatus.Pending none none now
            ({ db1 with products := sessionProducts, orders := db1.orders ++ [order] },
             CreateOrderResponse.created newOrderId)

/-! ## PhonePe service: status check and webhook-signature verification -/

/-- Raw outcome of the axios GET behind checkPaymentStatus: either
response data (state, code), or a network error with its error code
(e.g. ECONNABORTED for a client-side timeout). -/
inductive StatusCheckOutcome
  | ok (state : String) (code : String)
  | netError (errCode : String) (msg : String)
  deriving DecidableEq, Repr

/-- What PhonePeService.checkPaymentStatus returns to its callers. -/
structure PaymentStatusResult where
  success : Bool
  status : String
  code : String
  deriving DecidableEq, Repr

/-- PhonePeService.checkPaymentStatus: on response data, success iff the
state is COMPLETED or the code is PAYMENT_SUCCESS; on an ECONNABORTED
error, presumptive success (COMPLETED); on any other error, PENDING. -/
def checkPaymentStatus (outcome : StatusCheckOutcome) : PaymentStatusResult :=
  match outcome with
  | StatusCheckOutcome.ok state code =>
    { success := decide (state = "COMPLETED" ∨ code = "PAYMENT_SUCCESS"),
      status := state, code := code }
  | StatusCheckOutcome.netError errCode _ =>
    if errCode = "ECONNABORTED" then
      { success := true, status := "COMPLETED", code := "TIMEOUT_ASSUMED_SUCCESS" }
    else
      { success := false, status := "PENDING", code := "STATUS_CHECK_FAILED" }

/-- JavaScript's header.split('###') on the character list, greedy from
the left: each occurrence of the three-character marker starts a new
field.  `acc` holds the reversed characters of the current field. -/
def splitOnTripleHash (cs : List Char) (acc : List Char) : List String :=
  match cs with
  | [] => [String.mk acc.reverse]
  | '#' :: '#' :: '#' :: rest => String.mk acc.reverse :: splitOnTripleHash rest []
  | c :: rest => splitOnTripleHash rest (c :: acc)

/-- The signature part of an X-Verify header of shape
<signature>###<key-index>. -/
def headerSignaturePart (header : String) : String :=
  (splitOnTripleHash header.data []).headD ""

/-- PhonePeService.verifyWebhookSignature, parameterized by the SHA-256
function: split the X-Verify header on "###", recompute a plain SHA-256
digest of responseBody + "/pg/v1/status/" + clientSecret, and compare it
with the signature part of the header. -/
def verifyWebhookSignature (sha256 : String → String) (clientSecret : String)
    (xVerifyHeader : Option String) (responseBody : String) : Bool :=
  match xVerifyHeader with
  | none => false
  | some header =>
    let receivedSignature := headerSignaturePart header
    if receivedSignature = "" then false
    else
      let expectedSignature := sha256 (responseBody ++ "/pg/v1/status/" ++ clientSecret)
      decide (expectedSignature = receivedSignature)

/-- Modelled from the spec: the webhook verification the spec describes
(this definition follows the spec's words, not the source, for the
refinement comparison): recompute HMAC-SHA256 over the RAW request body
with the shared secret and compare it with the signature part of the
header. -/
def specWebhookVerify (hmacSha256 : String → String → String) (secret : String)
    (xVerifyHeader : Option String) (rawBody : String) : Bool :=
  match xVerifyHeader with
  | none => false
  | some header =>
    let receivedSignature := headerSignaturePart header
    if receivedSignature = "" then false
    else decide (hmacSha256 secret rawBody = receivedSignature)

/-- A webhook HTTP request: the raw bytes on the wire and the
re-serialized parsed body, i.e. the value of JSON.stringify(req.body)
(two raw bodies differing only in formatting share it). -/
structure WebhookRequest where
  rawBody : String
  bodyJson : String
  deriving DecidableEq, Repr

/-- The signature input the Razorpay webhook handlers feed to
HMAC-SHA256: JSON.stringify(req.body), not the raw body. -/
def razorpaySignatureInput (req : WebhookRequest) : String :=
  req.bodyJson

/-- Razorpay webhook verification (both razorpayWebhook.js and the
/razorpay-webhook route): HMAC-SHA256 of JSON.stringify(req.body) with
the webhook secret, compared with the x-razorpay-signature header. -/
def razorpayWebhookVerify (hmacSha256 : String → String → String) (secret : String)
    (req : WebhookRequest) (signatureHeader : String) : Bool :=
  decide (hmacSha256 secret (razorpaySignatureInput req) = signatureHeader)

/-! ## Webhook and verification handlers -/

/-- The decoded PhonePe webhook payload fields the handler reads. -/
structure PhonePeWebhookData where
  merchantTransactionId : Option String
  state : String
  code : String
  deriving DecidableEq, Repr

/-- HTTP statuses the webhook/verify handlers answer with. -/
inductive HandlerResponse
  | ok200
  | okExisting (orderId : String)
  | badRequest400 (msg : String)
  | notFound404
  | serverError500
  deriving DecidableEq, Repr

/-- POST /phonepe-webhook, after a fixed signature-verification verdict
`sigValid` (the route computes it as
verifyWebhookSignature header (JSON.stringify req.body)).  On success
state COMPLETED/PAYMENT_SUCCESS, the order found by transactionId is set
Paid/Processing and the customer confirmation email is sent — with no
already-Paid guard; otherwise the order is set Canceled/Failed. -/
def phonePeWebhook (db : DB) (sigValid : Bool) (w : PhonePeWebhookData) :
    DB × HandlerResponse :=
  if !sigValid then
    (db, HandlerResponse.badRequest400 "Invalid webhook signature.")
  else
    match w.merchantTransactionId with
    | none => (db, HandlerResponse.badRequest400 "Missing transaction ID.")
    | some tx =>
      match db.orders.find? (fun o => decide (o.transactionId = some tx)) with
      | none => (db, HandlerResponse.notFound404)
      | some order =>
        if w.state = "COMPLETED" ∧ w.code = "PAYMENT_SUCCESS" then
          let order' := { order with
            orderStatus := OrderStatus.Processing, paymentStatus := PaymentStatus.Paid }
          let emails := match order.customerEmail with
            | some _ => db.emails ++ [order.orderId]
            | none => db.emails
          ({ db with orders := saveOrder db.orders order', emails := emails },
           HandlerResponse.ok200)
        else
          let order' := { order with
            orderStatus := OrderStatus.Canceled, paymentStatus := PaymentStatus.Failed }
          ({ db with orders := saveOrder db.orders order' }, HandlerResponse.ok200)

/-- The full /phonepe-webhook route including its signature check:
verification runs over req.bodyJson (JSON.stringify of the parsed body)
and on mismatch answers 400 before reading the event. -/
def phonePeWebhookRoute (sha256 : String → String) (clientSecret : String)
    (db : DB) (req : WebhookRequest) (xVerify : Option String)
    (w : PhonePeWebhookData) : DB × HandlerResponse :=
  phonePeWebhook db (verifyWebhookSignature sha256 clientSecret xVerify req.bodyJson) w

/-- handlePaymentCaptured (Razorpay webhook): only when the order is not
already Paid, set Paid/Processing and record the payment id; no customer
email is sent here. -/
def handlePaymentCaptured (db : DB) (orderId : Option String) (paymentId : String) : DB :=
  match orderId with
  | none => db
  | some oid =>
    match findOrder db.orders oid with
    | none => db
    | some order =>
      if order.paymentStatus ≠ PaymentStatus.Paid then
        let order' := { order with
          paymentStatus := PaymentStatus.Paid, orderStatus := OrderStatus.Processing,
          transactionId := some paymentId }
        { db with orders := saveOrder db.orders order' }
      else db

/-- The sub-loop of POST /verify-payment and /phonepe-verify that
re-checks product existence and stock and deducts it inside the session. -/
def verifyDeductStock (ps : List Product) :
    List OrderItem → Except HandlerResponse (List Product)
  | [] => Except.ok ps
  | item :: rest =>
    match findProduct ps item.productId with
    | none => Except.error HandlerResponse.notFound404
    | some p =>
      if p.stock < item.quantity then
        Except.error (HandlerResponse.badRequest400 "Insufficient stock")
      else
        verifyDeductStock (saveProduct ps { p with stock := p.stock - item.quantity }) rest

/-- The echoed orderData bundle of the verify endpoints. -/
structure VerifyOrderData where
  orderId : String
  orderItems : List OrderItem
  totalPrice : Int
  discountAmount : Int
  shippingCharges : Int
  finalTotal : Int
  idempotencyKey : String
  paymentMethod : String
  customerEmail : Option String
  deriving DecidableEq, Repr

/-- Build the Paid/Processing Order document the verify endpoints save. -/
def mkVerifiedOrder (od : VerifyOrderData) (txn : String) (now : Int) : Order :=
  { orderId := od.orderId
    idempotencyKey := od.idempotencyKey
    paymentMethod := od.paymentMethod
    orderItems := od.orderItems
    totalPrice := od.totalPrice
    discountAmount := od.discountAmount
    shippingCharges := od.shippingCharges
    finalTotal := od.finalTotal
    orderStatus := OrderStatus.Processing
    paymentStatus := PaymentStatus.Paid
    transactionId := some txn
    merchantTransactionId := none
    customerEmail := od.customerEmail
    partialRefunds := []
    totalRefunded := 0
    createdAt := now }

/-- POST /verify-payment (Razorpay): after the signature check, an
idempotent-replay guard on orderId, the razorpay-order status check,
stock deduction, the Paid/Processing insert, and the customer email. -/
def verifyPayment (db : DB) (sigValid : Bool) (orderId : String)
    (od : VerifyOrderData) (razorpayOrderPaid : Bool) (paymentId : String)
    (now : Int) : DB × HandlerResponse :=
  if !sigValid then
    (db, HandlerResponse.badRequest400 "Payment verification failed")
  else
    match findOrder db.orders orderId with
    | some _ => (db, HandlerResponse.okExisting orderId)
    | none =>
      if !razorpayOrderPaid then
        (db, HandlerResponse.badRequest400 "Razorpay order verification failed")
      else
        match verifyDeductStock db.products od.orderItems with
        | Except.error e => (db, e)
        | Except.ok ps =>
          let order := mkVerifiedOrder od paymentId now
          let emails := match od.customerEmail with
            | some _ => db.emails ++ [od.orderId]
            | none => db.emails
          ({ db with products := ps, orders := db.orders ++ [order], emails := emails },
           HandlerResponse.ok200)

/-- POST /phonepe-verify: same shape as verify-payment with the PhonePe
status check as the gateway evidence. -/
def phonePeVerify (db : DB) (orderId : String) (transactionId : String)
    (od : VerifyOrderData) (statusOutcome : StatusCheckOutcome) (now : Int) :
    DB × HandlerResponse :=
  match findOrder db.orders orderId with
  | some _ => (db, HandlerResponse.okExisting orderId)
  | none =>
    let status := checkPaymentStatus statusOutcome
    if !status.success ∨ status.status ≠ "COMPLETED" then
      (db, HandlerResponse.badRequest400 "Payment not successful or still pending.")
    else
      match verifyDeductStock db.products od.orderItems with
      | Except.error e => (db, e)
      | Except.ok ps =>
        let order := mkVerifiedOrder od transactionId now
        let emails := match od.customerEmail with
          | some _ => db.emails ++ [od.orderId]
          | none => db.emails
        ({ db with products := ps, orders := db.orders ++ [order], emails := emails },
         HandlerResponse.ok200)

/-! ## GET /phonepe-return/:orderId -/

/-- Redirect targets of the PhonePe return handler. -/
inductive ReturnResponse
  | redirect (location : String)
  deriving DecidableEq, Repr

/-- GET /phonepe-return/:orderId.  An order already Canceled/Failed is
answered with the order_cancelled error redirect before any status check
or update; otherwise the provider status decides between finalization
(guarded by not-already-Paid, with customer email) and a failure
redirect. -/
def phonePeReturn (db : DB) (orderId : String) (queryTx : Option String)
    (statusOutcome : StatusCheckOutcome) : DB × ReturnResponse :=
  match findOrder db.orders orderId with
  | none =>
    (db, ReturnResponse.redirect
      ("/store/order-confirmation.html?error=order_not_found&orderId=" ++ orderId))
  | some order =>
    if order.orderStatus = OrderStatus.Canceled ∧ order.paymentStatus = PaymentStatus.Failed then
      (db, ReturnResponse.redirect
        ("/store/order-confirmation.html?error=order_cancelled&orderId=" ++ orderId))
    else
      match (order.merchantTransactionId.or queryTx).or order.transactionId with
      | none =>
        (db, ReturnResponse.redirect
          ("/store/order-confirmation.html?error=no_transaction_id&orderId=" ++ orderId))
      | some tx =>
        let status := checkPaymentStatus statusOutcome
        if status.success then
          if order.paymentStatus ≠ PaymentStatus.Paid then
            let order' := { order with
              orderStatus := OrderStatus.Processing, paymentStatus := PaymentStatus.Paid,
              transactionId := some tx }
            let emails := match order.customerEmail with
              | some _ => db.emails ++ [order.orderId]
              | none => db.emails
            ({ db with orders := saveOrder db.orders order', emails := emails },
             ReturnResponse.redirect
               ("/store/order-confirmation.html?orderId=" ++ orderId ++ "&status=success"))
          else
            (db, ReturnResponse.redirect
              ("/store/order-confirmation.html?orderId=" ++ orderId ++ "&status=success"))
        else
          (db, ReturnResponse.redirect
            ("/store/order-confirmation.html?error=payment_failed&orderId=" ++ orderId))

/-! ## AutoCancelService -/

/-- The selection predicate of checkPendingOrders: paymentStatus
Pending, orderStatus Pending or Processing, createdAt older than the
cutoff. -/
def sweepTarget (cutoff : Int) (o : Order) : Bool :=
  decide (o.paymentStatus = PaymentStatus.Pending
    ∧ (o.orderStatus = OrderStatus.Pending ∨ o.orderStatus = OrderStatus.Processing)
    ∧ o.createdAt < cutoff)

/-- AutoCancelService.cancelOrder for one order: restore stock for its
items (skipping items whose product no longer exists), then set the
order Canceled/Failed and log the cancellation. -/
def autoCancelOrder (db : DB) (o : Order) : DB :=
  let ps := autoCancelRestoreStock db.products o.orderItems
  let o' := { o with orderStatus := OrderStatus.Canceled, paymentStatus := PaymentStatus.Failed }
  { db with
    products := ps
    orders := saveOrder db.orders o'
    log := db.log ++ [LogEvent.autoCancelled o.orderId] }

/-- One iteration of the sweep loop: orders in `fails` stand for a
cancelOrder whose final status update threw (stock restoration has
already happened at that point); the error is caught, logged and the
loop continues. -/
def sweepStep (fails : List String) (db : DB) (o : Order) : DB :=
  if o.orderId ∈ fails then
    { db with
      products := autoCancelRestoreStock db.products o.orderItems
      log := db.log ++ [LogEvent.autoCancelFailed o.orderId] }
  else autoCancelOrder db o

/-- AutoCancelService.checkPendingOrders: select the stale pending
orders, cancel each in turn tolerating per-order failures, and when at
least one was selected append the sweep summary; with no matches the
function returns early and logs nothing. -/
def checkPendingOrders (db : DB) (now timeoutMinutes : Int) (fails : List String) : DB :=
  let cutoff := now - timeoutMinutes * 60 * 1000
  let selected := db.orders.filter (sweepTarget cutoff)
  if selected.isEmpty then db
  else
    let db1 := selected.foldl (sweepStep fails) db
    { db1 with log := db1.log ++
        [LogEvent.autoCancelSummary selected.length
          (selected.countP (fun o => !decide (o.orderId ∈ fails)))
          (selected.countP (fun o => decide (o.orderId ∈ fails)))] }

/-! ## Refund routes -/

/-- Responses of POST /refund/full and /refund/partial. -/
inductive RefundResponse
  | notFound
  | noTransaction
  | alreadyRefunded
  | notPaid
  | invalidAmount
  | exceedsRemaining (already remaining : Int)
  | gatewayError (msg : String)
  | okFull (amount : Int)
  | okPartial (amount totalRefunded : Int)
  deriving DecidableEq, Repr

/-- POST /refund/full: eligibility checks (transaction id present, not
already Refunded, currently Paid), the gateway refund for the whole
finalTotal, then Refunded/Canceled plus stock restoration in one
transaction. `gatewayOk` is the razorpay.payments.refund outcome. -/
def fullRefund (db : DB) (orderId : String) (gatewayOk : Bool) : DB × RefundResponse :=
  match findOrder db.orders orderId with
  | none => (db, RefundResponse.notFound)
  | some order =>
    if order.transactionId = none then (db, RefundResponse.noTransaction)
    else if order.paymentStatus = PaymentStatus.Refunded then (db, RefundResponse.alreadyRefunded)
    else if order.paymentStatus ≠ PaymentStatus.Paid then (db, RefundResponse.notPaid)
    else if !gatewayOk then (db, RefundResponse.gatewayError "Failed to process refund")
    else
      let order' := { order with
        paymentStatus := PaymentStatus.Refunded, orderStatus := OrderStatus.Canceled }
      ({ db with
          orders := saveOrder db.orders order'
          products := refundRestoreStock db.products order.orderItems },
       RefundResponse.okFull order.finalTotal)

/-- The order update of POST /refund/partial once the gateway refund
succeeded: append the partial-refund record, set totalRefunded to the
new running total and, once that total reaches finalTotal, promote the
order to Refunded/Canceled. -/
def applyPartialRefund (order : Order) (amount : Int) : Order :=
  let newTotal := order.partialRefunds.sum + amount
  let promoted := decide (order.finalTotal ≤ newTotal)
  { order with
    partialRefunds := order.partialRefunds ++ [amount]
    totalRefunded := newTotal
    paymentStatus := if promoted then PaymentStatus.Refunded else order.paymentStatus
    orderStatus := if promoted then OrderStatus.Canceled else order.orderStatus }

/-- POST /refund/partial: eligibility checks (transaction id present,
currently Paid, a positive amount within finalTotal), the
running-total guard, the gateway refund, appending the partial-refund
record, updating totalRefunded, and auto-promotion to Refunded/Canceled
once the running total reaches finalTotal.  Stock is not restored. -/
def partialRefund (db : DB) (orderId : String) (amount : Int) (gatewayOk : Bool) :
    DB × RefundResponse :=
  match findOrder db.orders orderId with
  | none => (db, RefundResponse.notFound)
  | some order =>
    if order.transactionId = none then (db, RefundResponse.noTransaction)
    else if order.paymentStatus ≠ PaymentStatus.Paid then (db, RefundResponse.notPaid)
    else if amount ≤ 0 ∨ order.finalTotal < amount then (db, RefundResponse.invalidAmount)
    else
      let totalRefunded := order.partialRefunds.sum
      if order.finalTotal < totalRefunded + amount then
        (db, RefundResponse.exceedsRemaining totalRefunded (order.finalTotal - totalRefunded))
      else if !gatewayOk then (db, RefundResponse.gatewayError "Failed to process partial refund")
      else
        ({ db with orders := saveOrder db.orders (applyPartialRefund order amount) },
         RefundResponse.okPartial amount (totalRefunded + amount))

/-! ## Fixtures used by closed (counter)example theorems -/

/-- A product in stock. -/
def appleProduct : Product := { id := 1, name := "Apple", price := 100, stock := 5 }

/-- An order item for two apples. -/
def appleItem : OrderItem :=
  { productId := 1, name := "Apple", price := 100, quantity := 2, subtotal := 200 }

/-- An order item whose product id resolves to no Product document. -/
def ghostItem : OrderItem :=
  { productId := 2, name := "Ghost", price := 50, quantity := 3, subtotal := 150 }

/-- A paid order holding one resolvable and one unresolvable item. -/
def paidMixedOrder : Order :=
  { orderId := "R1"
    idempotencyKey := "razorpay_RK"
    paymentMethod := "razorpay"
    orderItems := [appleItem, ghostItem]
    totalPrice := 300
    discountAmount := 0
    shippingCharges := 0
    finalTotal := 300
    orderStatus := OrderStatus.Processing
    paymentStatus := PaymentStatus.Paid
    transactionId := some "pay_77"
    merchantTransactionId := none
    customerEmail := some "c@example.com"
    partialRefunds := []
    totalRefunded := 0
    createdAt := 0 }

/-- Database for the best-effort stock-restoration scenario. -/
def dbMissingProduct : DB :=
  { products := [appleProduct], orders := [paidMixedOrder], emails := [], log := [] }

/-- A PhonePe order still Pending/Pending with caller key K. -/
def pendingPhonePeOrder : Order :=
  { orderId := "A1"
    idempotencyKey := "phonepe_K"
    paymentMethod := "phonepe"
    orderItems := [appleItem]
    totalPrice := 200
    discountAmount := 0
    shippingCharges := 0
    finalTotal := 200
    orderStatus := OrderStatus.Pending
    paymentStatus := PaymentStatus.Pending
    transactionId := some "T1"
    merchantTransactionId := some "M1"
    customerEmail := some "c@example.com"
    partialRefunds := []
    totalRefunded := 0
    createdAt := 0 }

/-- The same order after successful payment. -/
def paidPhonePeOrder : Order :=
  { pendingPhonePeOrder with
    orderStatus := OrderStatus.Processing, paymentStatus := PaymentStatus.Paid }

/-- The same order after cancellation. -/
def cancelledPhonePeOrder : Order :=
  { pendingPhonePeOrder with
    orderStatus := OrderStatus.Canceled, paymentStatus := PaymentStatus.Failed }

/-- One product, one in-flight PhonePe order. -/
def dbPending : DB :=
  { products := [appleProduct], orders := [pendingPhonePeOrder], emails := [], log := [] }

/-- One product, one already-paid PhonePe order. -/
def dbPaid : DB :=
  { products := [appleProduct], orders := [paidPhonePeOrder], emails := [], log := [] }

/-- One product, one cancelled PhonePe order. -/
def dbCancelled : DB :=
  { products := [appleProduct], orders := [cancelledPhonePeOrder], emails := [], log := [] }

/-- One product, no orders. -/
def dbFresh : DB :=
  { products := [appleProduct], orders := [], emails := [], log := [] }

/-- A create-order request for two apples through PhonePe, caller key K. -/
def phonePeReq : CreateOrderRequest :=
  { baseKey := some "K"
    paymentMethod := "phonepe"
    cartItems := [{ productId := 1, quantity := 2 }]
    totalPrice := 200
    discountAmount := 0
    shippingCharges := 0
    customerEmail := some "c@example.com" }

/-- The same cart submitted through Razorpay with the same caller key. -/
def razorpayReq : CreateOrderRequest :=
  { phonePeReq with paymentMethod := "razorpay" }

/-- The same cart submitted with a deferred-settlement method. -/
def codReq : CreateOrderRequest :=
  { phonePeReq with paymentMethod := "cod" }

/-- A successful PhonePe payment webhook for transaction T1. -/
def successWebhook : PhonePeWebhookData :=
  { merchantTransactionId := some "T1", state := "COMPLETED", code := "PAYMENT_SUCCESS" }

/-- The orderData bundle echoed back for the Razorpay attempt A2. -/
def razorpayVerifyData : VerifyOrderData :=
  { orderId := "A2"
    orderItems := [appleItem]
    totalPrice := 200
    discountAmount := 0
    shippingCharges := 0
    finalTotal := 200
    idempotencyKey := "razorpay_K"
    paymentMethod := "razorpay"
    customerEmail := some "c@example.com" }

/-- Gateway-switch trace, step 1: create the PhonePe attempt (intent ok). -/
def c3Step1 : DB :=
  (createOrder dbFresh phonePeReq "A1"
    (PhonePeCreateResult.ok "T1" "payurl" "M1") (RazorpayCreateResult.ok "rz") 1).1

/-- Step 2: the user switches gateways; same caller key via Razorpay. -/
def c3Step2 : DB :=
  (createOrder c3Step1 razorpayReq "A2"
    (PhonePeCreateResult.ok "T9" "u9" "M9") (RazorpayCreateResult.ok "rzo") 2).1

/-- Step 3: the Razorpay payment is verified, persisting order A2 Paid. -/
def c3Step3 : DB :=
  (verifyPayment c3Step2 true "A2" razorpayVerifyData true "pay_1" 3).1

/-- Step 4: a late PhonePe success webhook for the cancelled attempt A1. -/
def c3Step4 : DB :=
  (phonePeWebhook c3Step3 true successWebhook).1

/-- A paid order with finalTotal 1249 (the spec's refund scenario). -/
def refundOrder1249 : Order :=
  { paidPhonePeOrder with
    orderId := "R2", idempotencyKey := "razorpay_R2", paymentMethod := "razorpay",
    totalPrice := 1299, discountAmount := 100, shippingCharges := 50, finalTotal := 1249,
    transactionId := some "pay_1249" }

/-- Database for the partial-refund scenario. -/
def dbRefund0 : DB :=
  { products := [appleProduct], orders := [refundOrder1249], emails := [], log := [] }

/-- After the first partial refund of 500. -/
def dbRefund1 : DB := (partialRefund dbRefund0 "R2" 500 true).1

/-- After the second partial refund of 749 (running total 1249). -/
def dbRefund2 : DB := (partialRefund dbRefund1 "R2" 749 true).1

/-- Injective string-tagging stand-in for SHA-256 in closed examples. -/
def tagSha256 (s : String) : String := "sha256(" ++ s ++ ")"

/-- Injective string-tagging stand-in for HMAC-SHA256 in closed examples. -/
def tagHmacSha256 (key msg : String) : String := "hmac(" ++ key ++ "|" ++ msg ++ ")"

/-- A webhook request whose raw bytes differ from the re-serialized
JSON.stringify(req.body) form (extra whitespace on the wire). -/
def wsReq : WebhookRequest :=
  { rawBody := "json with spaces", bodyJson := "jsonwithspaces" }

/-- The X-Verify header PhonePe would have to send for wsReq to pass
the source's verification: the tagged digest of the re-serialized body
plus path plus secret, with key index 1. -/
def wsHeader : String := tagSha256 ("jsonwithspaces/pg/v1/status/sec") ++ "###1"

end RipenRed

namespace RipenRed

/-! ## Helper lemmas about the product store -/

theorem findProduct_id {ps : List Product} {pid : Nat} {p : Product}
    (h : findProduct ps pid = some p) : p.id = pid := by
  have := List.find?_some h
  exact of_decide_eq_true this

theorem findProduct_cons (p : Product) (ps : List Product) (pid : Nat) :
    findProduct (p :: ps) pid = if p.id = pid then some p else findProduct ps pid := by
  by_cases h : p.id = pid
  · simp [findProduct, List.find?, h]
  · simp [findProduct, List.find?, h]

theorem saveProduct_cons (p : Product) (ps : List Product) (q : Product) :
    saveProduct (p :: ps) q = (if p.id = q.id then q else p) :: saveProduct ps q := rfl

theorem findProduct_saveProduct_ne (ps : List Product) (q : Product) (pid : Nat)
    (h : q.id ≠ pid) : findProduct (saveProduct ps q) pid = findProduct ps pid := by
  induction ps with
  | nil => rfl
  | cons p ps ih =>
    rw [saveProduct_cons, findProduct_cons, findProduct_cons]
    by_cases hpq : p.id = q.id
    · have h2 : ¬ p.id = pid := by rw [hpq]; exact h
      rw [if_pos hpq, if_neg h, if_neg h2]
      exact ih
    · rw [if_neg hpq]
      by_cases hpid : p.id = pid
      · rw [if_pos hpid, if_pos hpid]
      · rw [if_neg hpid, if_neg hpid]
        exact ih

theorem findProduct_saveProduct_eq (ps : List Product) (q : Product) (pid : Nat)
    (hq : q.id = pid) (p0 : Product) (hfound : findProduct ps pid = some p0) :
    findProduct (saveProduct ps q) pid = some q := by
  induction ps with
  | nil => simp [findProduct] at hfound
  | cons p ps ih =>
    rw [saveProduct_cons, findProduct_cons]
    rw [findProduct_cons] at hfound
    by_cases hpid : p.id = pid
    · have hpq : p.id = q.id := by rw [hq]; exact hpid
      rw [if_pos hpq, if_pos hq]
    · have hpq : ¬ p.id = q.id := by rw [hq]; exact hpid
      rw [if_neg hpid] at hfound
      rw [if_neg hpq, if_neg hpid]
      exact ih hfound

theorem findProduct_saveProduct_none (ps : List Product) (q : Product) (pid : Nat)
    (h : findProduct ps pid = none) : findProduct (saveProduct ps q) pid = none := by
  induction ps with
  | nil => rfl
  | cons p ps ih =>
    rw [findProduct_cons] at h
    by_cases hpid : p.id = pid
    · rw [if_pos hpid] at h; exact absurd h (by simp)
    · rw [if_neg hpid] at h
      rw [saveProduct_cons, findProduct_cons]
      by_cases hpq : p.id = q.id
      · have hqpid : ¬ q.id = pid := by rw [← hpq]; exact hpid
        rw [if_pos hpq, if_neg hqpid]
        exact ih h
      · rw [if_neg hpq, if_neg hpid]
        exact ih h

theorem qtySum_cons (item : OrderItem) (items : List OrderItem) (pid : Nat) :
    qtySum (item :: items) pid
      = (if item.productId = pid then item.quantity else 0) + qtySum items pid := by
  simp [qtySum]

/-- The per-item restoration loop adds exactly the summed quantity to
every product that exists and leaves missing products missing. -/
theorem findProduct_restoreStock (items : List OrderItem) (ps : List Product) (pid : Nat) :
    findProduct (restoreStock ps items) pid
      = (findProduct ps pid).map (fun p => { p with stock := p.stock + qtySum items pid }) := by
  induction items generalizing ps with
  | nil =>
    cases h : findProduct ps pid with
    | none => simp [restoreStock, h]
    | some p => simp [restoreStock, h, qtySum]
  | cons item rest ih =>
    show findProduct (restoreStock _ _) pid = _
    cases hfind : findProduct ps item.productId with
    | none =>
      have hstep : restoreStock ps (item :: rest) = restoreStock ps rest := by
        simp [restoreStock, hfind]
      rw [hstep, ih]
      by_cases hpid : item.productId = pid
      · rw [← hpid] at *; rw [hfind]; simp
      · cases h : findProduct ps pid with
        | none => simp
        | some p => simp [qtySum_cons, hpid]
    | some p0 =>
      have hid : p0.id = item.productId := findProduct_id hfind
      have hstep : restoreStock ps (item :: rest)
          = restoreStock (saveProduct ps { p0 with stock := p0.stock + item.quantity }) rest := by
        simp [restoreStock, hfind]
      rw [hstep, ih]
      by_cases hpid : item.productId = pid
      · have hq : ({ p0 with stock := p0.stock + item.quantity } : Product).id = pid := by
          simpa [hpid] using hid
        have hfound : findProduct ps pid = some p0 := by rw [← hpid]; exact hfind
        rw [findProduct_saveProduct_eq ps _ pid hq p0 hfound]
        rw [← hpid, hfind]
        simp [qtySum_cons, hpid]
        omega
      · have hq : ({ p0 with stock := p0.stock + item.quantity } : Product).id ≠ pid := by
          simpa [hid] using hpid
        rw [findProduct_saveProduct_ne ps _ pid hq]
        cases h : findProduct ps pid with
        | none => simp
        | some p => simp [qtySum_cons, hpid]

theorem findProduct_foldl_restoreStock (os : List Order) (ps : List Product) (pid : Nat) :
    findProduct (os.foldl (fun acc o => restoreStock acc o.orderItems) ps) pid
      = (findProduct ps pid).map (fun p => { p with stock := p.stock + ordersQtySum os pid }) := by
  induction os generalizing ps with
  | nil =>
    cases h : findProduct ps pid with
    | none => simp [h]
    | some p => simp [h, ordersQtySum]
  | cons o rest ih =>
    rw [List.foldl_cons, ih, findProduct_restoreStock]
    cases h : findProduct ps pid with
    | none => simp
    | some p =>
      simp [ordersQtySum]
      omega

/-! ## Branch lemmas for POST /create-order -/

theorem cancelPendingForBaseKey_orders (db : DB) (base : String) :
    (cancelPendingForBaseKey db base).orders = db.orders.map (fun o =>
      if cancelTarget base o then
        { o with orderStatus := OrderStatus.Canceled, paymentStatus := PaymentStatus.Failed }
      else o) := rfl

theorem cancelPendingForBaseKey_products (db : DB) (base : String) :
    (cancelPendingForBaseKey db base).products
      = (db.orders.filter (cancelTarget base)).foldl
          (fun ps o => restoreStock ps o.orderItems) db.products := rfl

theorem createOrder_noKey (db : DB) (r : CreateOrderRequest) (nid : String)
    (pp : PhonePeCreateResult) (rz : RazorpayCreateResult) (now : Int)
    (h1 : r.baseKey = none) :
    createOrder db r nid pp rz now
      = (db, CreateOrderResponse.badRequest
          "Idempotency key is required to prevent duplicate orders.") := by
  simp only [createOrder, h1]

theorem createOrder_duplicate (db : DB) (r : CreateOrderRequest) (base nid : String)
    (pp : PhonePeCreateResult) (rz : RazorpayCreateResult) (now : Int) (existing : Order)
    (h1 : r.baseKey = some base)
    (h2 : (cancelPendingForBaseKey db base).orders.find?
        (keyPred (r.paymentMethod ++ "_" ++ base)) = some existing) :
    createOrder db r nid pp rz now
      = (cancelPendingForBaseKey db base,
         CreateOrderResponse.duplicate existing.orderId existing.orderStatus) := by
  simp only [createOrder, h1]
  rw [h2]

theorem createOrder_phonepe (db : DB) (r : CreateOrderRequest) (base nid : String)
    (pp : PhonePeCreateResult) (rz : RazorpayCreateResult) (now : Int)
    (items : List OrderItem) (sessionPs : List Product)
    (h1 : r.baseKey = some base)
    (h5 : r.paymentMethod = "phonepe")
    (h2 : (cancelPendingForBaseKey db base).orders.find?
        (keyPred (r.paymentMethod ++ "_" ++ base)) = none)
    (h3 : r.cartItems.isEmpty = false)
    (h4 : buildOrderItems true (cancelPendingForBaseKey db base).products r.cartItems
        = Except.ok (items, sessionPs))
    (h6 : (cancelPendingForBaseKey db base).orders.find?
        (fun o => decide (o.orderId = nid
          ∨ o.idempotencyKey = r.paymentMethod ++ "_" ++ base)) = none) :
    createOrder db r nid pp rz now
      = match pp with
        | PhonePeCreateResult.ok txnId payUrl mOrderId =>
          ({ cancelPendingForBaseKey db base with
              products := phonePeDeductStock sessionPs items
              orders := (cancelPendingForBaseKey db base).orders
                ++ [mkOrder r nid (r.paymentMethod ++ "_" ++ base) items
                    OrderStatus.Pending PaymentStatus.Pending (some txnId) (some mOrderId) now] },
           CreateOrderResponse.phonePeCheckout nid payUrl)
        | PhonePeCreateResult.timeout =>
          ({ cancelPendingForBaseKey db base with
              orders := (cancelPendingForBaseKey db base).orders
                ++ [mkOrder r nid (r.paymentMethod ++ "_" ++ base) items
                    OrderStatus.Canceled PaymentStatus.Failed none none now] },
           CreateOrderResponse.phonePeTimeoutRedirect nid
             ("/store/order-confirmation.html?error=phonepe_timeout&orderId=" ++ nid))
        | PhonePeCreateResult.failure m =>
          (cancelPendingForBaseKey db base, CreateOrderResponse.phonePeError m) := by
  have hg : decide (r.paymentMethod = "razorpay" ∨ r.paymentMethod = "phonepe") = true := by
    rw [h5]; decide
  have hnr : ¬ r.paymentMethod = "razorpay" := by rw [h5]; decide
  simp only [createOrder, h1]
  rw [h2, h3, hg, h4]
  simp only [if_neg hnr, if_pos h5]
  rw [h6]
  simp

theorem createOrder_razorpay (db : DB) (r : CreateOrderRequest) (base nid : String)
    (pp : PhonePeCreateResult) (rz : RazorpayCreateResult) (now : Int)
    (items : List OrderItem) (sessionPs : List Product)
    (h1 : r.baseKey = some base)
    (h5 : r.paymentMethod = "razorpay")
    (h2 : (cancelPendingForBaseKey db base).orders.find?
        (keyPred (r.paymentMethod ++ "_" ++ base)) = none)
    (h3 : r.cartItems.isEmpty = false)
    (h4 : buildOrderItems true (cancelPendingForBaseKey db base).products r.cartItems
        = Except.ok (items, sessionPs)) :
    createOrder db r nid pp rz now
      = match rz with
        | RazorpayCreateResult.ok rzId =>
          ({ cancelPendingForBaseKey db base with products := sessionPs },
           CreateOrderResponse.razorpayCheckout rzId nid)
        | RazorpayCreateResult.failure m =>
          (cancelPendingForBaseKey db base, CreateOrderResponse.serverError m) := by
  have hg : decide (r.paymentMethod = "razorpay" ∨ r.paymentMethod = "phonepe") = true := by
    rw [h5]; decide
  simp only [createOrder, h1]
  rw [h2, h3, hg, h4]
  simp only [if_pos h5]
  simp

theorem createOrder_deferred (db : DB) (r : CreateOrderRequest) (base nid : String)
    (pp : PhonePeCreateResult) (rz : RazorpayCreateResult) (now : Int)
    (items : List OrderItem) (sessionPs : List Product)
    (h1 : r.baseKey = some base)
    (h5r : r.paymentMethod ≠ "razorpay")
    (h5p : r.paymentMethod ≠ "phonepe")
    (h2 : (cancelPendingForBaseKey db base).orders.find?
        (keyPred (r.paymentMethod ++ "_" ++ base)) = none)
    (h3 : r.cartItems.isEmpty = false)
    (h4 : buildOrderItems false (cancelPendingForBaseKey db base).products r.cartItems
        = Except.ok (items, sessionPs)) :
    createOrder db r nid pp rz now
      = ({ cancelPendingForBaseKey db base with
            products := sessionPs
            orders := (cancelPendingForBaseKey db base).orders
              ++ [mkOrder r nid (r.paymentMethod ++ "_" ++ base) items
                  OrderStatus.Pending PaymentStatus.Pending none none now] },
         CreateOrderResponse.created nid) := by
  have hg : decide (r.paymentMethod = "razorpay" ∨ r.paymentMethod = "phonepe") = false := by
    simp [h5r, h5p]
  simp only [createOrder, h1]
  rw [h2, h3, hg, h4]
  simp only [if_neg h5r, if_neg h5p]
  simp

theorem createOrder_emptyCart (db : DB) (r : CreateOrderRequest) (base nid : String)
    (pp : PhonePeCreateResult) (rz : RazorpayCreateResult) (now : Int)
    (h1 : r.baseKey = some base)
    (h2 : (cancelPendingForBaseKey db base).orders.find?
        (keyPred (r.paymentMethod ++ "_" ++ base)) = none)
    (h3 : r.cartItems.isEmpty = true) :
    createOrder db r nid pp rz now
      = (cancelPendingForBaseKey db base, CreateOrderResponse.badRequest "Cart is empty.") := by
  simp only [createOrder, h1]
  rw [h2, h3]
  simp

theorem createOrder_buildError (db : DB) (r : CreateOrderRequest) (base nid : String)
    (pp : PhonePeCreateResult) (rz : RazorpayCreateResult) (now : Int)
    (e : CreateOrderResponse)
    (h1 : r.baseKey = some base)
    (h2 : (cancelPendingForBaseKey db base).orders.find?
        (keyPred (r.paymentMethod ++ "_" ++ base)) = none)
    (h3 : r.cartItems.isEmpty = false)
    (h4 : buildOrderItems (decide (r.paymentMethod = "razorpay" ∨ r.paymentMethod = "phonepe"))
        (cancelPendingForBaseKey db base).products r.cartItems = Except.error e) :
    createOrder db r nid pp rz now = (cancelPendingForBaseKey db base, e) := by
  simp only [createOrder, h1]
  rw [h2, h3, h4]
  simp

theorem createOrder_phonePeDup (db : DB) (r : CreateOrderRequest) (base nid : String)
    (pp : PhonePeCreateResult) (rz : RazorpayCreateResult) (now : Int)
    (items : List OrderItem) (sessionPs : List Product) (existing : Order)
    (h1 : r.baseKey = some base)
    (h5 : r.paymentMethod = "phonepe")
    (h2 : (cancelPendingForBaseKey db base).orders.find?
        (keyPred (r.paymentMethod ++ "_" ++ base)) = none)
    (h3 : r.cartItems.isEmpty = false)
    (h4 : buildOrderItems true (cancelPendingForBaseKey db base).products r.cartItems
        = Except.ok (items, sessionPs))
    (h6 : (cancelPendingForBaseKey db base).orders.find?
        (fun o => decide (o.orderId = nid
          ∨ o.idempotencyKey = r.paymentMethod ++ "_" ++ base)) = some existing) :
    createOrder db r nid pp rz now
      = (cancelPendingForBaseKey db base,
         CreateOrderResponse.phonePeExisting existing.orderId) := by
  have hg : decide (r.paymentMethod = "razorpay" ∨ r.paymentMethod = "phonepe") = true := by
    rw [h5]; decide
  have hnr : ¬ r.paymentMethod = "razorpay" := by rw [h5]; decide
  simp only [createOrder, h1]
  rw [h2, h3, hg, h4]
  simp only [if_neg hnr, if_pos h5]
  rw [h6]
  simp

/-! ## Lemmas about the stock-validation and deduction loops -/

theorem buildOrderItems_gateway_products (cart : List CartItem) (ps : List Product)
    (items : List OrderItem) (ps' : List Product)
    (h : buildOrderItems true ps cart = Except.ok (items, ps')) : ps' = ps := by
  induction cart generalizing ps items with
  | nil =>
    simp only [buildOrderItems, Except.ok.injEq, Prod.mk.injEq] at h
    exact h.2.symm
  | cons item rest ih =>
    cases hfind : findProduct ps item.productId with
    | none =>
      have hred : buildOrderItems true ps (item :: rest)
          = Except.error (CreateOrderResponse.notFound item.productId) := by
        simp [buildOrderItems, hfind]
      rw [hred] at h
      cases h
    | some p0 =>
      by_cases hs : p0.stock < item.quantity
      · have hred : buildOrderItems true ps (item :: rest)
            = Except.error (CreateOrderResponse.insufficientStock p0.name) := by
          simp [buildOrderItems, hfind, hs]
        rw [hred] at h
        cases h
      · cases hb : buildOrderItems true ps rest with
        | error e =>
          have hred : buildOrderItems true ps (item :: rest) = Except.error e := by
            simp [buildOrderItems, hfind, hs, hb]
          rw [hred] at h
          cases h
        | ok pair =>
          obtain ⟨ois, psOut⟩ := pair
          have hred : buildOrderItems true ps (item :: rest)
              = Except.ok (({ productId := p0.id, name := p0.name, price := p0.price, quantity := item.quantity, subtotal := p0.price * item.quantity } : OrderItem) :: ois, psOut) := by
            simp [buildOrderItems, hfind, hs, hb]
          rw [hred] at h
          cases h
          exact ih ps ois hb

theorem cartQty_cons (c : CartItem) (rest : List CartItem) (pid : Nat) :
    cartQty (c :: rest) pid
      = (if c.productId = pid then c.quantity else 0) + cartQty rest pid := by
  simp [cartQty]

theorem buildOrderItems_deduct (cart : List CartItem) (ps : List Product)
    (items : List OrderItem) (ps' : List Product) (pid : Nat)
    (h : buildOrderItems false ps cart = Except.ok (items, ps')) :
    findProduct ps' pid
      = (findProduct ps pid).map (fun p => { p with stock := p.stock - cartQty cart pid }) := by
  induction cart generalizing ps items with
  | nil =>
    simp only [buildOrderItems, Except.ok.injEq, Prod.mk.injEq] at h
    rw [← h.2]
    cases hf : findProduct ps pid with
    | none => simp [hf]
    | some p => simp [hf, cartQty]
  | cons item rest ih =>
    cases hfind : findProduct ps item.productId with
    | none =>
      have hred : buildOrderItems false ps (item :: rest)
          = Except.error (CreateOrderResponse.notFound item.productId) := by
        simp [buildOrderItems, hfind]
      rw [hred] at h
      cases h
    | some p0 =>
      by_cases hs : p0.stock < item.quantity
      · have hred : buildOrderItems false ps (item :: rest)
            = Except.error (CreateOrderResponse.insufficientStock p0.name) := by
          simp [buildOrderItems, hfind, hs]
        rw [hred] at h
        cases h
      · have hid : p0.id = item.productId := findProduct_id hfind
        cases hb : buildOrderItems false
            (saveProduct ps { p0 with stock := p0.stock - item.quantity }) rest with
        | error e =>
          have hred : buildOrderItems false ps (item :: rest) = Except.error e := by
            simp [buildOrderItems, hfind, hs, hb]
          rw [hred] at h
          cases h
        | ok pair =>
          obtain ⟨ois, psOut⟩ := pair
          have hred : buildOrderItems false ps (item :: rest)
              = Except.ok (({ productId := p0.id, name := p0.name, price := p0.price, quantity := item.quantity, subtotal := p0.price * item.quantity } : OrderItem) :: ois, psOut) := by
            simp [buildOrderItems, hfind, hs, hb]
          rw [hred] at h
          cases h
          have hrec := ih (saveProduct ps { p0 with stock := p0.stock - item.quantity }) ois hb
          rw [hrec]
          by_cases hpid : item.productId = pid
          · have hq : ({ p0 with stock := p0.stock - item.quantity } : Product).id = pid := by
              simpa [hpid] using hid
            have hfound : findProduct ps pid = some p0 := by rw [← hpid]; exact hfind
            rw [findProduct_saveProduct_eq ps _ pid hq p0 hfound, hfound]
            simp [cartQty_cons, hpid]
            omega
          · have hq : ({ p0 with stock := p0.stock - item.quantity } : Product).id ≠ pid := by
              simpa [hid] using hpid
            rw [findProduct_saveProduct_ne ps _ pid hq]
            cases hf : findProduct ps pid with
            | none => simp
            | some p => simp [cartQty_cons, hpid]

theorem findProduct_phonePeDeductStock (items : List OrderItem) (ps : List Product) (pid : Nat) :
    findProduct (phonePeDeductStock ps items) pid
      = (findProduct ps pid).map (fun p => { p with stock := p.stock - qtySum items pid }) := by
  induction items generalizing ps with
  | nil =>
    cases h : findProduct ps pid with
    | none => simp [phonePeDeductStock, h]
    | some p => simp [phonePeDeductStock, h, qtySum]
  | cons item rest ih =>
    cases hfind : findProduct ps item.productId with
    | none =>
      have hstep : phonePeDeductStock ps (item :: rest) = phonePeDeductStock ps rest := by
        simp [phonePeDeductStock, hfind]
      rw [hstep, ih]
      by_cases hpid : item.productId = pid
      · rw [← hpid] at *; rw [hfind]; simp
      · cases h : findProduct ps pid with
        | none => simp
        | some p => simp [qtySum_cons, hpid]
    | some p0 =>
      have hid : p0.id = item.productId := findProduct_id hfind
      have hstep : phonePeDeductStock ps (item :: rest)
          = phonePeDeductStock (saveProduct ps { p0 with stock := p0.stock - item.quantity }) rest := by
        simp [phonePeDeductStock, hfind]
      rw [hstep, ih]
      by_cases hpid : item.productId = pid
      · have hq : ({ p0 with stock := p0.stock - item.quantity } : Product).id = pid := by
          simpa [hpid] using hid
        have hfound : findProduct ps pid = some p0 := by rw [← hpid]; exact hfind
        rw [findProduct_saveProduct_eq ps _ pid hq p0 hfound]
        rw [← hpid, hfind]
        simp [qtySum_cons, hpid]
        omega
      · have hq : ({ p0 with stock := p0.stock - item.quantity } : Product).id ≠ pid := by
          simpa [hid] using hpid
        rw [findProduct_saveProduct_ne ps _ pid hq]
        cases h : findProduct ps pid with
        | none => simp
        | some p => simp [qtySum_cons, hpid]

/-! ## Shape and key-count lemmas for create-order -/

theorem createOrder_orders_shape (db : DB) (r : CreateOrderRequest) (base nid : String)
    (pp : PhonePeCreateResult) (rz : RazorpayCreateResult) (now : Int)
    (h1 : r.baseKey = some base) :
    ∃ extra : List Order,
      (createOrder db r nid pp rz now).1.orders
        = (cancelPendingForBaseKey db base).orders ++ extra
      ∧ (∀ o ∈ extra, o.orderId = nid
          ∧ o.idempotencyKey = r.paymentMethod ++ "_" ++ base)
      ∧ extra.length ≤ 1 := by
  cases hfind : (cancelPendingForBaseKey db base).orders.find?
      (keyPred (r.paymentMethod ++ "_" ++ base)) with
  | some existing =>
    rw [createOrder_duplicate db r base nid pp rz now existing h1 hfind]
    exact ⟨[], by simp, by simp, by simp⟩
  | none =>
    cases hempty : r.cartItems.isEmpty with
    | true =>
      rw [createOrder_emptyCart db r base nid pp rz now h1 hfind hempty]
      exact ⟨[], by simp, by simp, by simp⟩
    | false =>
      cases hbuild : buildOrderItems
          (decide (r.paymentMethod = "razorpay" ∨ r.paymentMethod = "phonepe"))
          (cancelPendingForBaseKey db base).products r.cartItems with
      | error e =>
        rw [createOrder_buildError db r base nid pp rz now e h1 hfind hempty hbuild]
        exact ⟨[], by simp, by simp, by simp⟩
      | ok pair =>
        obtain ⟨items, sessionPs⟩ := pair
        by_cases hmr : r.paymentMethod = "razorpay"
        · have hg : decide (r.paymentMethod = "razorpay" ∨ r.paymentMethod = "phonepe")
              = true := by rw [hmr]; decide
          rw [hg] at hbuild
          rw [createOrder_razorpay db r base nid pp rz now items sessionPs
            h1 hmr hfind hempty hbuild]
          cases rz with
          | ok rzId => exact ⟨[], by simp, by simp, by simp⟩
          | failure m => exact ⟨[], by simp, by simp, by simp⟩
        · by_cases hmp : r.paymentMethod = "phonepe"
          · have hg : decide (r.paymentMethod = "razorpay" ∨ r.paymentMethod = "phonepe")
                = true := by rw [hmp]; decide
            rw [hg] at hbuild
            cases hfind2 : (cancelPendingForBaseKey db base).orders.find?
                (fun o => decide (o.orderId = nid
                  ∨ o.idempotencyKey = r.paymentMethod ++ "_" ++ base)) with
            | some existing =>
              rw [createOrder_phonePeDup db r base nid pp rz now items sessionPs existing
                h1 hmp hfind hempty hbuild hfind2]
              exact ⟨[], by simp, by simp, by simp⟩
            | none =>
              rw [createOrder_phonepe db r base nid pp rz now items sessionPs
                h1 hmp hfind hempty hbuild hfind2]
              cases pp with
              | ok txnId payUrl mOrderId =>
                refine ⟨[mkOrder r nid (r.paymentMethod ++ "_" ++ base) items
                  OrderStatus.Pending PaymentStatus.Pending (some txnId) (some mOrderId) now],
                  by simp, ?_, by simp⟩
                intro o ho
                rw [List.mem_singleton] at ho
                subst ho
                exact ⟨rfl, rfl⟩
              | timeout =>
                refine ⟨[mkOrder r nid (r.paymentMethod ++ "_" ++ base) items
                  OrderStatus.Canceled PaymentStatus.Failed none none now],
                  by simp, ?_, by simp⟩
                intro o ho
                rw [List.mem_singleton] at ho
                subst ho
                exact ⟨rfl, rfl⟩
              | failure m => exact ⟨[], by simp, by simp, by simp⟩
          · have hg : decide (r.paymentMethod = "razorpay" ∨ r.paymentMethod = "phonepe")
                = false := by simp [hmr, hmp]
            rw [hg] at hbuild
            rw [createOrder_deferred db r base nid pp rz now items sessionPs
              h1 hmr hmp hfind hempty hbuild]
            refine ⟨[mkOrder r nid (r.paymentMethod ++ "_" ++ base) items
              OrderStatus.Pending PaymentStatus.Pending none none now],
              by simp, ?_, by simp⟩
            intro o ho
            rw [List.mem_singleton] at ho
            subst ho
            exact ⟨rfl, rfl⟩

theorem countP_cancelPending (db : DB) (base : String) (k : String) :
    (cancelPendingForBaseKey db base).orders.countP (keyPred k)
      = db.orders.countP (keyPred k) := by
  rw [cancelPendingForBaseKey_orders, List.countP_map]
  apply List.countP_congr
  intro o _
  by_cases hc : cancelTarget base o
  · simp [Function.comp, hc, keyPred]
  · simp [Function.comp, hc, keyPred]

theorem createOrder_keyCount (db : DB) (r : CreateOrderRequest) (base nid : String)
    (pp : PhonePeCreateResult) (rz : RazorpayCreateResult) (now : Int)
    (h1 : r.baseKey = some base) :
    (db.orders.countP (keyPred (r.paymentMethod ++ "_" ++ base)) = 0 →
      (createOrder db r nid pp rz now).1.orders.countP
        (keyPred (r.paymentMethod ++ "_" ++ base)) ≤ 1)
    ∧ (0 < db.orders.countP (keyPred (r.paymentMethod ++ "_" ++ base)) →
      (createOrder db r nid pp rz now).1.orders.countP
        (keyPred (r.paymentMethod ++ "_" ++ base))
        = db.orders.countP (keyPred (r.paymentMethod ++ "_" ++ base))) := by
  constructor
  · intro h0
    obtain ⟨extra, hshape, _, hlen⟩ := createOrder_orders_shape db r base nid pp rz now h1
    rw [hshape, List.countP_append, countP_cancelPending, h0]
    have hle : extra.countP (keyPred (r.paymentMethod ++ "_" ++ base)) ≤ extra.length :=
      List.countP_le_length _
    omega
  · intro hpos
    obtain ⟨o, ho, hp⟩ := List.countP_pos_iff.mp hpos
    have hmem : ∃ q ∈ (cancelPendingForBaseKey db base).orders,
        keyPred (r.paymentMethod ++ "_" ++ base) q := by
      refine ⟨if cancelTarget base o then
        { o with orderStatus := OrderStatus.Canceled, paymentStatus := PaymentStatus.Failed }
        else o, ?_, ?_⟩
      · rw [cancelPendingForBaseKey_orders]
        exact List.mem_map_of_mem _ ho
      · by_cases hc : cancelTarget base o
        · simpa [hc, keyPred] using hp
        · simpa [hc, keyPred] using hp
    have hsome : ((cancelPendingForBaseKey db base).orders.find?
        (keyPred (r.paymentMethod ++ "_" ++ base))).isSome :=
      List.find?_isSome.mpr hmem
    obtain ⟨existing, hfind⟩ := Option.isSome_iff_exists.mp hsome
    rw [createOrder_duplicate db r base nid pp rz now existing h1 hfind]
    exact countP_cancelPending db base _

/-! ## C10 -/

/-- C10: stock restoration is per-item best-effort in all three
restoration loops (restoreStock of the order routes, the auto-cancel
cancelOrder loop, the full-refund loop): an item whose productId no
longer resolves to a Product is silently skipped while every other
item's quantity is still added, and the enclosing operation (here the
full refund over an order with a dangling item) still completes
successfully. -/
theorem stock_restoration_is_per_item_best_effort :
    (∀ (ps : List Product) (items : List OrderItem) (pid : Nat),
      findProduct (restoreStock ps items) pid
        = (findProduct ps pid).map (fun p => { p with stock := p.stock + qtySum items pid }))
    ∧ autoCancelRestoreStock = restoreStock
    ∧ refundRestoreStock = restoreStock
    ∧ (fullRefund dbMissingProduct "R1" true).2 = RefundResponse.okFull 300
    ∧ findProduct (fullRefund dbMissingProduct "R1" true).1.products 1
        = some { id := 1, name := "Apple", price := 100, stock := 7 }
    ∧ findProduct (fullRefund dbMissingProduct "R1" true).1.products 2 = none := by
  refine ⟨fun ps items pid => findProduct_restoreStock items ps pid, rfl, rfl, ?_, ?_, ?_⟩
  · decide
  · decide
  · decide

/-! ## C5 -/

/-- C5: gateway timeouts resolve asymmetrically and always to a
definitive outcome.  If the PhonePe intent creation trips the
15-second client-side race (modelled by the timeout oracle outcome),
create-order persists a synthesized Canceled/Failed order and answers
with the redirect-with-error response; a timeout (ECONNABORTED) during
a post-redirect status check is interpreted as presumptive success,
success = true with status COMPLETED. -/
theorem gateway_timeouts_resolve_to_definitive_outcomes
    (db : DB) (r : CreateOrderRequest) (base nid : String)
    (rz : RazorpayCreateResult) (now : Int)
    (items : List OrderItem) (sessionPs : List Product)
    (h1 : r.baseKey = some base)
    (h5 : r.paymentMethod = "phonepe")
    (h2 : (cancelPendingForBaseKey db base).orders.find?
        (keyPred (r.paymentMethod ++ "_" ++ base)) = none)
    (h3 : r.cartItems.isEmpty = false)
    (h4 : buildOrderItems true (cancelPendingForBaseKey db base).products r.cartItems
        = Except.ok (items, sessionPs))
    (h6 : (cancelPendingForBaseKey db base).orders.find?
        (fun o => decide (o.orderId = nid
          ∨ o.idempotencyKey = r.paymentMethod ++ "_" ++ base)) = none) :
    createOrder db r nid PhonePeCreateResult.timeout rz now
      = ({ cancelPendingForBaseKey db base with
            orders := (cancelPendingForBaseKey db base).orders
              ++ [mkOrder r nid (r.paymentMethod ++ "_" ++ base) items
                  OrderStatus.Canceled PaymentStatus.Failed none none now] },
         CreateOrderResponse.phonePeTimeoutRedirect nid
           ("/store/order-confirmation.html?error=phonepe_timeout&orderId=" ++ nid))
    ∧ (∀ msg, checkPaymentStatus (StatusCheckOutcome.netError "ECONNABORTED" msg)
        = { success := true, status := "COMPLETED", code := "TIMEOUT_ASSUMED_SUCCESS" }) := by
  refine ⟨?_, fun msg => rfl⟩
  exact createOrder_phonepe db r base nid PhonePeCreateResult.timeout rz now
    items sessionPs h1 h5 h2 h3 h4 h6

/-- Witness for C5 at a concrete database and request. -/
theorem gateway_timeouts_witness :
    phonePeReq.baseKey = some "K"
    ∧ (createOrder dbFresh phonePeReq "W5" PhonePeCreateResult.timeout
        (RazorpayCreateResult.ok "rz") 7).2
      = CreateOrderResponse.phonePeTimeoutRedirect "W5"
          "/store/order-confirmation.html?error=phonepe_timeout&orderId=W5"
    ∧ checkPaymentStatus (StatusCheckOutcome.netError "ECONNABORTED" "timeout of 30000ms exceeded")
      = { success := true, status := "COMPLETED", code := "TIMEOUT_ASSUMED_SUCCESS" } := by
  have h := gateway_timeouts_resolve_to_definitive_outcomes dbFresh phonePeReq "K" "W5"
    (RazorpayCreateResult.ok "rz") 7 [appleItem] [appleProduct] rfl rfl rfl rfl rfl rfl
  refine ⟨rfl, ?_, h.2 "timeout of 30000ms exceeded"⟩
  rw [h.1]
  decide

/-! ## C9 -/

/-- C9: once an order is Canceled/Failed, the PhonePe return handler
never modifies it: the request redirects with error=order_cancelled,
the database is unchanged, and the result does not depend on the
provider status-check outcome (it is never consulted). -/
theorem phonepe_return_never_touches_cancelled_orders
    (db : DB) (orderId : String) (qtx qtx' : Option String)
    (so so' : StatusCheckOutcome) (order : Order)
    (hfind : findOrder db.orders orderId = some order)
    (hc : order.orderStatus = OrderStatus.Canceled)
    (hf : order.paymentStatus = PaymentStatus.Failed) :
    phonePeReturn db orderId qtx so
      = (db, ReturnResponse.redirect
          ("/store/order-confirmation.html?error=order_cancelled&orderId=" ++ orderId))
    ∧ phonePeReturn db orderId qtx so = phonePeReturn db orderId qtx' so' := by
  have key : ∀ (q : Option String) (s : StatusCheckOutcome),
      phonePeReturn db orderId q s
        = (db, ReturnResponse.redirect
            ("/store/order-confirmation.html?error=order_cancelled&orderId=" ++ orderId)) := by
    intro q s
    simp only [phonePeReturn]
    rw [hfind]
    simp only []
    rw [if_pos (And.intro hc hf)]
  exact ⟨key qtx so, (key qtx so).trans (key qtx' so').symm⟩

/-- Witness for C9: a replayed browser return on a cancelled order. -/
theorem phonepe_return_cancelled_witness :
    findOrder dbCancelled.orders "A1" = some cancelledPhonePeOrder
    ∧ phonePeReturn dbCancelled "A1" (some "T1") (StatusCheckOutcome.ok "COMPLETED" "PAYMENT_SUCCESS")
      = (dbCancelled, ReturnResponse.redirect
          "/store/order-confirmation.html?error=order_cancelled&orderId=A1") := by
  have h := phonepe_return_never_touches_cancelled_orders dbCancelled "A1"
    (some "T1") none (StatusCheckOutcome.ok "COMPLETED" "PAYMENT_SUCCESS")
    (StatusCheckOutcome.netError "X" "x") cancelledPhonePeOrder rfl rfl rfl
  exact ⟨rfl, h.1⟩

/-! ## C2 -/

/-- C2 (evaluation of the code at the failing input): delivering the
same successful PhonePe webhook twice for the already-paid order A1
leaves the order, the stock and the response unchanged, but appends the
customer confirmation email a second time — the PhonePe webhook success
path has no already-Paid guard around the email.  The Razorpay captured
handler, by contrast, is guarded and leaves an already-paid order
untouched. -/
theorem phonepe_webhook_double_delivery_resends_email :
    (phonePeWebhook dbPaid true successWebhook).1.emails = ["A1"]
    ∧ (phonePeWebhook (phonePeWebhook dbPaid true successWebhook).1 true successWebhook).1.emails
        = ["A1", "A1"]
    ∧ (phonePeWebhook (phonePeWebhook dbPaid true successWebhook).1 true successWebhook).1.orders
        = (phonePeWebhook dbPaid true successWebhook).1.orders
    ∧ (phonePeWebhook (phonePeWebhook dbPaid true successWebhook).1 true successWebhook).1.products
        = dbPaid.products
    ∧ (phonePeWebhook (phonePeWebhook dbPaid true successWebhook).1 true successWebhook).2
        = HandlerResponse.ok200
    ∧ handlePaymentCaptured dbPaid (some "A1") "pay_9" = dbPaid := by
  decide

/-! ## C7 -/

/-- C7 counterexample: with injective tagging stand-ins for the hash
functions, the PhonePe route accepts a header recomputed from
JSON.stringify(req.body) + "/pg/v1/status/" + secret via plain SHA-256,
on a request whose raw body differs from that re-serialized form; the
spec-modelled verifier (HMAC-SHA256 over the raw body) rejects that
same header, and the Razorpay digest likewise depends only on the
re-serialized body — refuting that every handler recomputes HMAC-SHA256
over the raw request body. -/
theorem webhook_signature_not_hmac_of_raw_body :
    verifyWebhookSignature tagSha256 "sec" (some wsHeader) wsReq.bodyJson = true
    ∧ specWebhookVerify tagHmacSha256 "sec" (some wsHeader) wsReq.rawBody = false
    ∧ wsReq.rawBody ≠ wsReq.bodyJson
    ∧ razorpayWebhookVerify tagHmacSha256 "sec" wsReq (tagHmacSha256 "sec" wsReq.bodyJson) = true
    ∧ tagHmacSha256 "sec" wsReq.bodyJson ≠ tagHmacSha256 "sec" wsReq.rawBody := by
  decide

/-- C7 amended: the handlers parse the PhonePe X-Verify header as
<signature>###<key-index> and reject with 400 before reading the event
or touching any order, but the recomputed digest is a plain SHA-256
over JSON.stringify(req.body) + "/pg/v1/status/" + secret (PhonePe),
respectively an HMAC-SHA256 over JSON.stringify(req.body) (Razorpay),
not an HMAC over the raw request body. -/
theorem webhook_signature_checked_before_event :
    (∀ (sha256 : String → String) (secret : String) (db : DB) (req : WebhookRequest)
        (xv : Option String) (w w' : PhonePeWebhookData),
      verifyWebhookSignature sha256 secret xv req.bodyJson = false →
        phonePeWebhookRoute sha256 secret db req xv w
          = (db, HandlerResponse.badRequest400 "Invalid webhook signature.")
        ∧ phonePeWebhookRoute sha256 secret db req xv w
          = phonePeWebhookRoute sha256 secret db req xv w')
    ∧ (∀ (sha256 : String → String) (secret sig idx body : String),
        splitOnTripleHash (sig ++ "###" ++ idx).data [] = [sig, idx] → sig ≠ "" →
        (verifyWebhookSignature sha256 secret (some (sig ++ "###" ++ idx)) body = true
          ↔ sha256 (body ++ "/pg/v1/status/" ++ secret) = sig))
    ∧ (∀ (hmac : String → String → String) (secret : String) (req : WebhookRequest) (h : String),
        razorpayWebhookVerify hmac secret req h = true ↔ hmac secret req.bodyJson = h) := by
  refine ⟨?_, ?_, ?_⟩
  · intro sha secret db req xv w w' hv
    refine ⟨?_, ?_⟩
    · simp only [phonePeWebhookRoute, phonePeWebhook, hv]
      rfl
    · simp only [phonePeWebhookRoute, phonePeWebhook, hv]
      rfl
  · intro sha secret sig idx body hsplit hne
    simp only [verifyWebhookSignature, headerSignaturePart, hsplit]
    simp [hne]
  · intro hmac secret req h
    simp [razorpayWebhookVerify, razorpaySignatureInput]

/-- Witness for C7 amended at concrete headers and hash stand-ins. -/
theorem webhook_signature_checked_witness :
    verifyWebhookSignature tagSha256 "sec" none wsReq.bodyJson = false
    ∧ phonePeWebhookRoute tagSha256 "sec" dbPaid wsReq none successWebhook
        = (dbPaid, HandlerResponse.badRequest400 "Invalid webhook signature.")
    ∧ splitOnTripleHash ("abc" ++ "###" ++ "1").data [] = ["abc", "1"]
    ∧ (verifyWebhookSignature tagSha256 "sec" (some ("abc" ++ "###" ++ "1")) "body" = true
        ↔ tagSha256 ("body" ++ "/pg/v1/status/" ++ "sec") = "abc")
    ∧ (razorpayWebhookVerify tagHmacSha256 "sec" wsReq "h7" = true
        ↔ tagHmacSha256 "sec" wsReq.bodyJson = "h7") := by
  have h := webhook_signature_checked_before_event
  exact ⟨by decide,
    (h.1 tagSha256 "sec" dbPaid wsReq none successWebhook successWebhook (by decide)).1,
    by decide,
    h.2.1 tagSha256 "sec" "abc" "1" "body" (by decide) (by decide),
    h.2.2 tagHmacSha256 "sec" wsReq "h7"⟩


/-! ## C1 -/

/-- C1 counterexample to the claim as stated: a second create-order call
with the same caller key and payment method does answer 409 with the
existing order id and (current) status and persists no new order, but
the same-base-key cleanup sweep has already restored stock (5 to 7) and
cancelled the in-flight attempt BEFORE the duplicate check; and two
Razorpay create-order calls with the same key persist zero orders, not
exactly one. -/
theorem create_order_duplicate_counterexample :
    (createOrder dbPending phonePeReq "A2" PhonePeCreateResult.timeout
        (RazorpayCreateResult.ok "rz") 5).2
      = CreateOrderResponse.duplicate "A1" OrderStatus.Canceled
    ∧ findProduct (createOrder dbPending phonePeReq "A2" PhonePeCreateResult.timeout
        (RazorpayCreateResult.ok "rz") 5).1.products 1
      = some { id := 1, name := "Apple", price := 100, stock := 7 }
    ∧ findProduct dbPending.products 1
      = some { id := 1, name := "Apple", price := 100, stock := 5 }
    ∧ (createOrder (createOrder dbFresh razorpayReq "B1" (PhonePeCreateResult.ok "t" "u" "m")
        (RazorpayCreateResult.ok "rz1") 1).1 razorpayReq "B2" (PhonePeCreateResult.ok "t" "u" "m")
        (RazorpayCreateResult.ok "rz2") 2).1.orders = [] := by
  decide

/-- C1 amended: when the composite idempotency key matches a persisted
order (after the cleanup sweep), create-order answers 409 with that
order's orderId and current orderStatus, persists no new Order, makes
no gateway call (the result is oracle-independent), and the only stock
change is the cleanup's restoration of superseded pending attempts; and
two create-order calls with the same caller key and payment method
leave at most one persisted Order under that composite key. -/
theorem create_order_duplicate_returns_409
    (db : DB) (r r2 : CreateOrderRequest) (base nid nid2 : String)
    (pp pp2 : PhonePeCreateResult) (pp3 : PhonePeCreateResult)
    (rz rz2 : RazorpayCreateResult) (rz3 : RazorpayCreateResult)
    (now now2 : Int) (existing : Order)
    (h1 : r.baseKey = some base) :
    ((cancelPendingForBaseKey db base).orders.find?
        (keyPred (r.paymentMethod ++ "_" ++ base)) = some existing →
      createOrder db r nid pp rz now
        = (cancelPendingForBaseKey db base,
           CreateOrderResponse.duplicate existing.orderId existing.orderStatus)
      ∧ (createOrder db r nid pp rz now).1.orders.length = db.orders.length
      ∧ (∀ pid, findProduct (createOrder db r nid pp rz now).1.products pid
          = (findProduct db.products pid).map (fun p =>
              { p with stock := p.stock
                + ordersQtySum (db.orders.filter (cancelTarget base)) pid }))
      ∧ createOrder db r nid pp rz now = createOrder db r nid pp3 rz3 now)
    ∧ (r2.baseKey = some base → r2.paymentMethod = r.paymentMethod →
        db.orders.countP (keyPred (r.paymentMethod ++ "_" ++ base)) = 0 →
        (createOrder (createOrder db r nid pp rz now).1 r2 nid2 pp2 rz2 now2).1.orders.countP
          (keyPred (r.paymentMethod ++ "_" ++ base)) ≤ 1) := by
  constructor
  · intro hfind
    have hdup := createOrder_duplicate db r base nid pp rz now existing h1 hfind
    have hdup2 := createOrder_duplicate db r base nid pp3 rz3 now existing h1 hfind
    refine ⟨hdup, ?_, ?_, hdup.trans hdup2.symm⟩
    · rw [hdup]
      show (cancelPendingForBaseKey db base).orders.length = _
      rw [cancelPendingForBaseKey_orders, List.length_map]
    · intro pid
      rw [hdup]
      show findProduct (cancelPendingForBaseKey db base).products pid = _
      rw [cancelPendingForBaseKey_products, findProduct_foldl_restoreStock]
  · intro h1b hm2 h0
    have hc1 := (createOrder_keyCount db r base nid pp rz now h1).1 h0
    have hkey2 : r2.paymentMethod ++ "_" ++ base = r.paymentMethod ++ "_" ++ base := by
      rw [hm2]
    by_cases hz : (createOrder db r nid pp rz now).1.orders.countP
        (keyPred (r.paymentMethod ++ "_" ++ base)) = 0
    · have hc2 := (createOrder_keyCount (createOrder db r nid pp rz now).1 r2 base
        nid2 pp2 rz2 now2 h1b).1
      rw [hkey2] at hc2
      exact hc2 hz
    · have hpos : 0 < (createOrder db r nid pp rz now).1.orders.countP
          (keyPred (r.paymentMethod ++ "_" ++ base)) := by omega
      have hc2 := (createOrder_keyCount (createOrder db r nid pp rz now).1 r2 base
        nid2 pp2 rz2 now2 h1b).2
      rw [hkey2] at hc2
      rw [hc2 hpos]
      exact hc1

/-- Witness for C1 amended at the concrete pending database. -/
theorem create_order_duplicate_witness :
    (cancelPendingForBaseKey dbPending "K").orders.find? (keyPred "phonepe_K")
        = some cancelledPhonePeOrder
    ∧ createOrder dbPending phonePeReq "A2" PhonePeCreateResult.timeout
        (RazorpayCreateResult.ok "rz") 5
      = (cancelPendingForBaseKey dbPending "K",
         CreateOrderResponse.duplicate "A1" OrderStatus.Canceled)
    ∧ (createOrder (createOrder dbFresh phonePeReq "A1"
        (PhonePeCreateResult.ok "T1" "payurl" "M1") (RazorpayCreateResult.ok "rz") 1).1
        phonePeReq "A2" (PhonePeCreateResult.ok "T2" "u2" "M2")
        (RazorpayCreateResult.ok "rz") 2).1.orders.countP (keyPred "phonepe_K") ≤ 1 := by
  have ha := (create_order_duplicate_returns_409 dbPending phonePeReq phonePeReq "K" "A2" "A3"
      PhonePeCreateResult.timeout PhonePeCreateResult.timeout PhonePeCreateResult.timeout
      (RazorpayCreateResult.ok "rz") (RazorpayCreateResult.ok "rz") (RazorpayCreateResult.ok "rz")
      5 6 cancelledPhonePeOrder rfl).1 (by decide)
  have hb := (create_order_duplicate_returns_409 dbFresh phonePeReq phonePeReq "K" "A1" "A2"
      (PhonePeCreateResult.ok "T1" "payurl" "M1") (PhonePeCreateResult.ok "T2" "u2" "M2")
      PhonePeCreateResult.timeout
      (RazorpayCreateResult.ok "rz") (RazorpayCreateResult.ok "rz") (RazorpayCreateResult.ok "rz")
      1 2 cancelledPhonePeOrder rfl).2 rfl rfl (by decide)
  exact ⟨by decide, ha.1, hb⟩

/-! ## C3 -/

/-- C3 counterexample to the as-stated consequence: after switching
gateways (PhonePe attempt A1 cancelled by the Razorpay create, which is
then verified and persisted as A2 Paid), a late PhonePe success webhook
for the cancelled attempt still marks A1 Paid — two orders for caller
key K end up Paid. -/
theorem gateway_switch_two_paid_counterexample :
    (findOrder c3Step2.orders "A1").map Order.orderStatus = some OrderStatus.Canceled
    ∧ (findOrder c3Step2.orders "A1").map Order.paymentStatus = some PaymentStatus.Failed
    ∧ (findOrder c3Step4.orders "A1").map Order.paymentStatus = some PaymentStatus.Paid
    ∧ (findOrder c3Step4.orders "A2").map Order.paymentStatus = some PaymentStatus.Paid
    ∧ c3Step4.orders.countP (fun o => decide (o.paymentStatus = PaymentStatus.Paid
        ∧ matchesBaseKey o.idempotencyKey "K")) = 2 := by
  decide

/-- C3 amended: before honoring a new create-order attempt, every order
with the same base caller key (either gateway prefix — in particular a
different payment method) still Pending/Pending is actively cancelled:
its cancelled version is persisted in the post-state, its pending
version is gone, and the cleanup restores the stock of all targeted
orders; the at-most-one-Paid consequence does not hold in general (see
the counterexample) because the PhonePe webhook can still finalize a
cancelled attempt. -/
theorem gateway_switch_cancels_pending_attempts
    (db : DB) (r : CreateOrderRequest) (base nid : String)
    (pp : PhonePeCreateResult) (rz : RazorpayCreateResult) (now : Int) (o : Order)
    (h1 : r.baseKey = some base)
    (ho : o ∈ db.orders)
    (hkey : matchesBaseKey o.idempotencyKey base)
    (hP : o.paymentStatus = PaymentStatus.Pending)
    (hO : o.orderStatus = OrderStatus.Pending)
    (hfresh : o.orderId ≠ nid) :
    ({ o with orderStatus := OrderStatus.Canceled, paymentStatus := PaymentStatus.Failed }
        ∈ (createOrder db r nid pp rz now).1.orders)
    ∧ o ∉ (createOrder db r nid pp rz now).1.orders
    ∧ (∀ pid, findProduct (cancelPendingForBaseKey db base).products pid
        = (findProduct db.products pid).map (fun p =>
            { p with stock := p.stock
              + ordersQtySum (db.orders.filter (cancelTarget base)) pid })) := by
  obtain ⟨extra, hshape, hkeys, _⟩ := createOrder_orders_shape db r base nid pp rz now h1
  have htarget : cancelTarget base o = true := by
    simp [cancelTarget, hkey, hP, hO]
  refine ⟨?_, ?_, ?_⟩
  · rw [hshape]
    apply List.mem_append_left
    rw [cancelPendingForBaseKey_orders]
    have hm := List.mem_map_of_mem (fun q =>
      if cancelTarget base q then
        { q with orderStatus := OrderStatus.Canceled, paymentStatus := PaymentStatus.Failed }
      else q) ho
    simpa [htarget] using hm
  · rw [hshape]
    intro hmem
    rcases List.mem_append.mp hmem with hin | hin
    · rw [cancelPendingForBaseKey_orders] at hin
      obtain ⟨q0, hq0, hfq⟩ := List.mem_map.mp hin
      by_cases hc : cancelTarget base q0 = true
      · rw [if_pos hc] at hfq
        exact absurd hO (by rw [← hfq]; simp)
      · rw [if_neg hc] at hfq
        rw [hfq] at hc
        exact absurd htarget hc
    · obtain ⟨hid, _⟩ := hkeys o hin
      exact hfresh hid
  · intro pid
    rw [cancelPendingForBaseKey_products, findProduct_foldl_restoreStock]

/-- Witness for C3 amended: the user switches from PhonePe to Razorpay
under caller key K; the pending PhonePe order is cancelled. -/
theorem gateway_switch_witness :
    pendingPhonePeOrder ∈ dbPending.orders
    ∧ cancelledPhonePeOrder ∈ (createOrder dbPending razorpayReq "A2"
        (PhonePeCreateResult.ok "T9" "u9" "M9") (RazorpayCreateResult.ok "rzo") 2).1.orders
    ∧ pendingPhonePeOrder ∉ (createOrder dbPending razorpayReq "A2"
        (PhonePeCreateResult.ok "T9" "u9" "M9") (RazorpayCreateResult.ok "rzo") 2).1.orders := by
  have h := gateway_switch_cancels_pending_attempts dbPending razorpayReq "K" "A2"
    (PhonePeCreateResult.ok "T9" "u9" "M9") (RazorpayCreateResult.ok "rzo") 2
    pendingPhonePeOrder rfl (by decide) (by decide) (by decide) (by decide) (by decide)
  exact ⟨by decide, h.1, h.2.1⟩

/-! ## C6 -/

/-- C6 counterexample to the claim as stated: a successful PhonePe
create-order call deducts stock (5 to 3) and inserts the Order row as
Pending/Pending at create time, before any payment confirmation. -/
theorem phonepe_deducts_and_inserts_at_create :
    findProduct (createOrder dbFresh phonePeReq "A1"
        (PhonePeCreateResult.ok "T1" "payurl" "M1") (RazorpayCreateResult.ok "rz") 1).1.products 1
      = some { id := 1, name := "Apple", price := 100, stock := 3 }
    ∧ (createOrder dbFresh phonePeReq "A1"
        (PhonePeCreateResult.ok "T1" "payurl" "M1") (RazorpayCreateResult.ok "rz") 1).1.orders.map
        (fun o => (o.orderId, o.orderStatus, o.paymentStatus))
      = [("A1", OrderStatus.Pending, PaymentStatus.Pending)] := by
  decide

/-- C6 amended: at create-order time Razorpay only validates stock and
inserts no Order row; PhonePe validates stock up front but, after a
successful intent creation, deducts stock and inserts the Order row as
Pending/Pending (before payment confirmation); deferred-settlement
methods deduct stock immediately inside the transaction and insert the
Order immediately as Pending/Pending. -/
theorem create_order_stock_strategies
    (db : DB) (r : CreateOrderRequest) (base nid : String)
    (pp : PhonePeCreateResult) (rz : RazorpayCreateResult) (now : Int)
    (items : List OrderItem) (sessionPs : List Product)
    (h1 : r.baseKey = some base)
    (h2 : (cancelPendingForBaseKey db base).orders.find?
        (keyPred (r.paymentMethod ++ "_" ++ base)) = none)
    (h3 : r.cartItems.isEmpty = false) :
    (∀ rzId, r.paymentMethod = "razorpay" →
      buildOrderItems true (cancelPendingForBaseKey db base).products r.cartItems
        = Except.ok (items, sessionPs) →
      (createOrder db r nid pp (RazorpayCreateResult.ok rzId) now).1.products
        = (cancelPendingForBaseKey db base).products
      ∧ (createOrder db r nid pp (RazorpayCreateResult.ok rzId) now).1.orders
        = (cancelPendingForBaseKey db base).orders
      ∧ (createOrder db r nid pp (RazorpayCreateResult.ok rzId) now).2
        = CreateOrderResponse.razorpayCheckout rzId nid)
    ∧ (∀ txnId payUrl mOrderId, r.paymentMethod = "phonepe" →
      buildOrderItems true (cancelPendingForBaseKey db base).products r.cartItems
        = Except.ok (items, sessionPs) →
      (cancelPendingForBaseKey db base).orders.find? (fun o =>
        decide (o.orderId = nid ∨ o.idempotencyKey = r.paymentMethod ++ "_" ++ base)) = none →
      (createOrder db r nid (PhonePeCreateResult.ok txnId payUrl mOrderId) rz now).1.orders
        = (cancelPendingForBaseKey db base).orders
          ++ [mkOrder r nid (r.paymentMethod ++ "_" ++ base) items
              OrderStatus.Pending PaymentStatus.Pending (some txnId) (some mOrderId) now]
      ∧ (∀ pid, findProduct
            (createOrder db r nid (PhonePeCreateResult.ok txnId payUrl mOrderId) rz now).1.products pid
          = (findProduct (cancelPendingForBaseKey db base).products pid).map (fun p =>
              { p with stock := p.stock - qtySum items pid })))
    ∧ (r.paymentMethod ≠ "razorpay" → r.paymentMethod ≠ "phonepe" →
      buildOrderItems false (cancelPendingForBaseKey db base).products r.cartItems
        = Except.ok (items, sessionPs) →
      (createOrder db r nid pp rz now).1.orders
        = (cancelPendingForBaseKey db base).orders
          ++ [mkOrder r nid (r.paymentMethod ++ "_" ++ base) items
              OrderStatus.Pending PaymentStatus.Pending none none now]
      ∧ (∀ pid, findProduct (createOrder db r nid pp rz now).1.products pid
          = (findProduct (cancelPendingForBaseKey db base).products pid).map (fun p =>
              { p with stock := p.stock - cartQty r.cartItems pid }))) := by
  refine ⟨?_, ?_, ?_⟩
  · intro rzId hm h4
    have hses := buildOrderItems_gateway_products r.cartItems
      (cancelPendingForBaseKey db base).products items sessionPs h4
    rw [createOrder_razorpay db r base nid pp (RazorpayCreateResult.ok rzId) now items sessionPs
      h1 hm h2 h3 h4]
    exact ⟨by rw [← hses], rfl, rfl⟩
  · intro txnId payUrl mOrderId hm h4 h6
    have hses := buildOrderItems_gateway_products r.cartItems
      (cancelPendingForBaseKey db base).products items sessionPs h4
    rw [createOrder_phonepe db r base nid (PhonePeCreateResult.ok txnId payUrl mOrderId) rz now
      items sessionPs h1 hm h2 h3 h4 h6]
    refine ⟨rfl, ?_⟩
    intro pid
    show findProduct (phonePeDeductStock sessionPs items) pid = _
    rw [findProduct_phonePeDeductStock, hses]
  · intro hmr hmp h4
    rw [createOrder_deferred db r base nid pp rz now items sessionPs h1 hmr hmp h2 h3 h4]
    refine ⟨rfl, ?_⟩
    intro pid
    show findProduct sessionPs pid = _
    exact buildOrderItems_deduct r.cartItems (cancelPendingForBaseKey db base).products
      items sessionPs pid h4

/-- Witness for C6 amended across the three payment-method classes. -/
theorem create_order_stock_strategies_witness :
    ((createOrder dbFresh razorpayReq "B1" PhonePeCreateResult.timeout
        (RazorpayCreateResult.ok "rz1") 1).1.orders
      = (cancelPendingForBaseKey dbFresh "K").orders
    ∧ (createOrder dbFresh razorpayReq "B1" PhonePeCreateResult.timeout
        (RazorpayCreateResult.ok "rz1") 1).2
      = CreateOrderResponse.razorpayCheckout "rz1" "B1")
    ∧ findProduct (createOrder dbFresh phonePeReq "A1"
        (PhonePeCreateResult.ok "T1" "payurl" "M1") (RazorpayCreateResult.ok "rz") 1).1.products 1
      = some { id := 1, name := "Apple", price := 100, stock := 3 }
    ∧ findProduct (createOrder dbFresh codReq "C1" PhonePeCreateResult.timeout
        (RazorpayCreateResult.ok "rz") 1).1.products 1
      = some { id := 1, name := "Apple", price := 100, stock := 3 } := by
  have hA := (create_order_stock_strategies dbFresh razorpayReq "K" "B1"
      PhonePeCreateResult.timeout (RazorpayCreateResult.ok "rz1") 1
      [appleItem] [appleProduct] rfl rfl rfl).1 "rz1" rfl rfl
  have hB := (create_order_stock_strategies dbFresh phonePeReq "K" "A1"
      (PhonePeCreateResult.ok "T1" "payurl" "M1") (RazorpayCreateResult.ok "rz") 1
      [appleItem] [appleProduct] rfl rfl rfl).2.1 "T1" "payurl" "M1" rfl rfl rfl
  have hC := (create_order_stock_strategies dbFresh codReq "K" "C1"
      PhonePeCreateResult.timeout (RazorpayCreateResult.ok "rz") 1
      [appleItem] [{ id := 1, name := "Apple", price := 100, stock := 3 }] rfl rfl rfl).2.2
      (by decide) (by decide) rfl
  refine ⟨⟨hA.2.1, hA.2.2⟩, ?_, ?_⟩
  · have hp := hB.2 1
    rw [hp]
    decide
  · have hp := hC.2 1
    rw [hp]
    decide

/-! ## C4 -/

/-- C4: totalRefunded never exceeds finalTotal.  (1) A partial refund
whose amount plus the sum of existing partial refunds exceeds
finalTotal is rejected with the database unchanged; (2) an accepted
partial refund sets totalRefunded to the new running total, which stays
at most finalTotal, and reaching finalTotal promotes the order to
Refunded/Canceled; (3) once paymentStatus is Refunded, every further
refund attempt (partial or full, any amount) is rejected with the
database unchanged. -/
theorem refund_totals_never_exceed_final_total
    (db : DB) (orderId : String) (a : Int) (g : Bool) (order : Order) (t : String)
    (hfind : findOrder db.orders orderId = some order) :
    (order.transactionId = some t → order.paymentStatus = PaymentStatus.Paid →
      0 < a → a ≤ order.finalTotal →
      order.finalTotal < order.partialRefunds.sum + a →
      partialRefund db orderId a g
        = (db, RefundResponse.exceedsRemaining order.partialRefunds.sum
            (order.finalTotal - order.partialRefunds.sum)))
    ∧ (order.transactionId = some t → order.paymentStatus = PaymentStatus.Paid →
      0 < a → a ≤ order.finalTotal →
      order.partialRefunds.sum + a ≤ order.finalTotal →
      partialRefund db orderId a true
        = ({ db with orders := saveOrder db.orders (applyPartialRefund order a) },
           RefundResponse.okPartial a (order.partialRefunds.sum + a))
      ∧ (applyPartialRefund order a).totalRefunded = order.partialRefunds.sum + a
      ∧ (applyPartialRefund order a).totalRefunded ≤ (applyPartialRefund order a).finalTotal
      ∧ ((applyPartialRefund order a).totalRefunded = (applyPartialRefund order a).finalTotal →
          (applyPartialRefund order a).paymentStatus = PaymentStatus.Refunded
          ∧ (applyPartialRefund order a).orderStatus = OrderStatus.Canceled))
    ∧ (order.paymentStatus = PaymentStatus.Refunded →
      ((partialRefund db orderId a g).1 = db
        ∧ ((partialRefund db orderId a g).2 = RefundResponse.noTransaction
           ∨ (partialRefund db orderId a g).2 = RefundResponse.notPaid))
      ∧ ((fullRefund db orderId g).1 = db
        ∧ ((fullRefund db orderId g).2 = RefundResponse.noTransaction
           ∨ (fullRefund db orderId g).2 = RefundResponse.alreadyRefunded))) := by
  refine ⟨?_, ?_, ?_⟩
  · intro ht hp ha hle hover
    simp only [partialRefund]
    rw [hfind]
    simp only []
    rw [if_neg (by simp [ht]), if_neg (by simp [hp]), if_neg (by omega), if_pos hover]
  · intro ht hp ha hle hsum
    refine ⟨?_, by simp [applyPartialRefund], ?_, ?_⟩
    · simp only [partialRefund]
      rw [hfind]
      simp only []
      rw [if_neg (by simp [ht]), if_neg (by simp [hp]), if_neg (by omega), if_neg (by omega)]
      simp
    · simp only [applyPartialRefund]
      omega
    · intro heq
      simp only [applyPartialRefund] at heq ⊢
      have hpm : order.finalTotal ≤ order.partialRefunds.sum + a := by omega
      rw [decide_eq_true hpm]
      exact ⟨rfl, rfl⟩
  · intro hr
    have hnp : order.paymentStatus ≠ PaymentStatus.Paid := by
      rw [hr]; intro hcon; cases hcon
    constructor
    · cases htx : order.transactionId with
      | none =>
        have hp : partialRefund db orderId a g = (db, RefundResponse.noTransaction) := by
          simp only [partialRefund]
          rw [hfind]
          simp only []
          rw [if_pos htx]
        rw [hp]
        exact ⟨rfl, Or.inl rfl⟩
      | some t' =>
        have hp : partialRefund db orderId a g = (db, RefundResponse.notPaid) := by
          simp only [partialRefund]
          rw [hfind]
          simp only []
          rw [if_neg (by simp [htx]), if_pos hnp]
        rw [hp]
        exact ⟨rfl, Or.inr rfl⟩
    · cases htx : order.transactionId with
      | none =>
        have hp : fullRefund db orderId g = (db, RefundResponse.noTransaction) := by
          simp only [fullRefund]
          rw [hfind]
          simp only []
          rw [if_pos htx]
        rw [hp]
        exact ⟨rfl, Or.inl rfl⟩
      | some t' =>
        have hp : fullRefund db orderId g = (db, RefundResponse.alreadyRefunded) := by
          simp only [fullRefund]
          rw [hfind]
          simp only []
          rw [if_neg (by simp [htx]), if_pos hr]
        rw [hp]
        exact ⟨rfl, Or.inr rfl⟩

/-- Witness for C4: the spec's 1249 scenario — after refunds of 500 and
749 the order is Refunded/Canceled with totalRefunded 1249, and a third
refund attempt of any kind is rejected. -/
theorem refund_totals_witness :
    (partialRefund dbRefund1 "R2" 749 true).2 = RefundResponse.okPartial 749 1249
    ∧ (findOrder dbRefund2.orders "R2").map Order.paymentStatus = some PaymentStatus.Refunded
    ∧ (findOrder dbRefund2.orders "R2").map Order.orderStatus = some OrderStatus.Canceled
    ∧ (findOrder dbRefund2.orders "R2").map Order.totalRefunded = some 1249
    ∧ (partialRefund dbRefund2 "R2" 100 true).1 = dbRefund2
    ∧ ((partialRefund dbRefund2 "R2" 100 true).2 = RefundResponse.noTransaction
       ∨ (partialRefund dbRefund2 "R2" 100 true).2 = RefundResponse.notPaid)
    ∧ (fullRefund dbRefund2 "R2" true).1 = dbRefund2 := by
  have h2 := (refund_totals_never_exceed_final_total dbRefund1 "R2" 749 true
      (applyPartialRefund refundOrder1249 500) "pay_1249" (by decide)).2.1
      (by decide) (by decide) (by decide) (by decide) (by decide)
  have h3 := (refund_totals_never_exceed_final_total dbRefund2 "R2" 100 true
      (applyPartialRefund (applyPartialRefund refundOrder1249 500) 749) "pay_1249"
      (by decide)).2.2 (by decide)
  refine ⟨?_, by decide, by decide, by decide, h3.1.1, h3.1.2, h3.2.1⟩
  rw [h2.1]
  decide

/-! ## Helper lemmas about the auto-cancel sweep -/

theorem sweepStep_log (fails : List String) (db : DB) (o : Order) :
    (sweepStep fails db o).log = db.log ++ [sweepLogEntry fails o] := by
  unfold sweepStep sweepLogEntry autoCancelOrder
  by_cases h : o.orderId ∈ fails
  · rw [if_pos h, if_pos h]
  · rw [if_neg h, if_neg h]

theorem sweepStep_products (fails : List String) (db : DB) (o : Order) :
    (sweepStep fails db o).products = restoreStock db.products o.orderItems := by
  unfold sweepStep autoCancelOrder autoCancelRestoreStock restoreStock
  split
  · rfl
  · rfl

theorem sweepFold_log (l : List Order) (fails : List String) (db : DB) :
    (l.foldl (sweepStep fails) db).log = db.log ++ l.map (sweepLogEntry fails) := by
  induction l generalizing db with
  | nil => simp
  | cons o rest ih =>
    rw [List.foldl_cons, ih, sweepStep_log]
    simp

theorem sweepFold_products (l : List Order) (fails : List String) (db : DB) :
    (l.foldl (sweepStep fails) db).products
      = l.foldl (fun ps o => restoreStock ps o.orderItems) db.products := by
  induction l generalizing db with
  | nil => rfl
  | cons o rest ih =>
    rw [List.foldl_cons, List.foldl_cons, ih, sweepStep_products]

theorem cancelledAt_saveOrder (x : String) (os : List Order) (o' : Order)
    (h : cancelledAt x os)
    (ho' : o'.orderStatus = OrderStatus.Canceled ∧ o'.paymentStatus = PaymentStatus.Failed) :
    cancelledAt x (saveOrder os o') := by
  intro q hq hx
  obtain ⟨q0, hq0, hfq⟩ := List.mem_map.mp hq
  by_cases he : q0.orderId = o'.orderId
  · rw [if_pos he] at hfq
    rw [← hfq]
    exact ho'
  · rw [if_neg he] at hfq
    rw [← hfq] at hx ⊢
    exact h q0 hq0 hx

theorem cancelledAt_saveOrder_target (os : List Order) (o' : Order)
    (ho' : o'.orderStatus = OrderStatus.Canceled ∧ o'.paymentStatus = PaymentStatus.Failed) :
    cancelledAt o'.orderId (saveOrder os o') := by
  intro q hq hqx
  obtain ⟨q0, hq0, hfq⟩ := List.mem_map.mp hq
  by_cases he : q0.orderId = o'.orderId
  · rw [if_pos he] at hfq
    rw [← hfq]
    exact ho'
  · rw [if_neg he] at hfq
    rw [← hfq] at hqx
    exact absurd hqx he

theorem cancelledAt_sweepStep (x : String) (fails : List String) (db : DB) (o : Order)
    (h : cancelledAt x db.orders) : cancelledAt x (sweepStep fails db o).orders := by
  unfold sweepStep
  split
  · exact h
  · exact cancelledAt_saveOrder x db.orders _ h ⟨rfl, rfl⟩

theorem cancelledAt_sweepStep_self (fails : List String) (db : DB) (o : Order)
    (hf : o.orderId ∉ fails) :
    cancelledAt o.orderId (sweepStep fails db o).orders := by
  unfold sweepStep
  rw [if_neg hf]
  exact cancelledAt_saveOrder_target db.orders
    { o with orderStatus := OrderStatus.Canceled, paymentStatus := PaymentStatus.Failed }
    ⟨rfl, rfl⟩

theorem cancelledAt_sweepFold (l : List Order) (fails : List String) (x : String) :
    ∀ db : DB, cancelledAt x db.orders → cancelledAt x (l.foldl (sweepStep fails) db).orders := by
  induction l with
  | nil => exact fun db h => h
  | cons o rest ih =>
    intro db h
    rw [List.foldl_cons]
    exact ih _ (cancelledAt_sweepStep x fails db o h)

theorem sweepFold_cancels (l : List Order) (fails : List String) (o : Order)
    (hf : o.orderId ∉ fails) :
    ∀ db : DB, o ∈ l → cancelledAt o.orderId (l.foldl (sweepStep fails) db).orders := by
  induction l with
  | nil => intro db ho; cases ho
  | cons hd rest ih =>
    intro db ho
    rw [List.foldl_cons]
    rcases List.mem_cons.mp ho with heq | hmem
    · rw [heq]
      rw [heq] at hf
      exact cancelledAt_sweepFold rest fails hd.orderId _
        (cancelledAt_sweepStep_self fails db hd hf)
    · exact ih _ hmem

/-! ## C8 -/

/-- C8 amended: a sweep selects exactly the orders with paymentStatus
Pending, orderStatus Pending or Processing, and createdAt older than
the cutoff; each selected order whose cancellation does not fail ends
up Canceled/Failed regardless of failures of other orders; the item
stock of every selected order is restored; one log entry is appended
per selected order, followed by the sweep summary — provided at least
one order was selected (an empty sweep returns early and logs no
summary). -/
theorem auto_cancel_sweep_effects (db : DB) (now timeoutMinutes : Int) (fails : List String) :
    (∀ o, o ∈ db.orders.filter (sweepTarget (now - timeoutMinutes * 60 * 1000))
      ↔ o ∈ db.orders ∧ o.paymentStatus = PaymentStatus.Pending
        ∧ (o.orderStatus = OrderStatus.Pending ∨ o.orderStatus = OrderStatus.Processing)
        ∧ o.createdAt < now - timeoutMinutes * 60 * 1000)
    ∧ (∀ o ∈ db.orders.filter (sweepTarget (now - timeoutMinutes * 60 * 1000)),
        o.orderId ∉ fails →
        cancelledAt o.orderId (checkPendingOrders db now timeoutMinutes fails).orders)
    ∧ (∀ pid, db.orders.filter (sweepTarget (now - timeoutMinutes * 60 * 1000)) ≠ [] →
        findProduct (checkPendingOrders db now timeoutMinutes fails).products pid
          = (findProduct db.products pid).map (fun p =>
              { p with stock := p.stock
                + ordersQtySum (db.orders.filter (sweepTarget (now - timeoutMinutes * 60 * 1000))) pid }))
    ∧ (db.orders.filter (sweepTarget (now - timeoutMinutes * 60 * 1000)) ≠ [] →
        (checkPendingOrders db now timeoutMinutes fails).log
          = db.log
            ++ (db.orders.filter (sweepTarget (now - timeoutMinutes * 60 * 1000))).map
                (sweepLogEntry fails)
            ++ [LogEvent.autoCancelSummary
                (db.orders.filter (sweepTarget (now - timeoutMinutes * 60 * 1000))).length
                ((db.orders.filter (sweepTarget (now - timeoutMinutes * 60 * 1000))).countP
                  (fun o => !decide (o.orderId ∈ fails)))
                ((db.orders.filter (sweepTarget (now - timeoutMinutes * 60 * 1000))).countP
                  (fun o => decide (o.orderId ∈ fails)))]) := by
  have hsel : ∀ o, o ∈ db.orders.filter (sweepTarget (now - timeoutMinutes * 60 * 1000))
      ↔ o ∈ db.orders ∧ o.paymentStatus = PaymentStatus.Pending
        ∧ (o.orderStatus = OrderStatus.Pending ∨ o.orderStatus = OrderStatus.Processing)
        ∧ o.createdAt < now - timeoutMinutes * 60 * 1000 := by
    intro o
    simp [List.mem_filter, sweepTarget, and_assoc]
  refine ⟨hsel, ?_, ?_, ?_⟩
  · intro o ho hf
    cases hflt : db.orders.filter (sweepTarget (now - timeoutMinutes * 60 * 1000)) with
    | nil => rw [hflt] at ho; cases ho
    | cons hd tl =>
      have hrun : checkPendingOrders db now timeoutMinutes fails
          = { (hd :: tl).foldl (sweepStep fails) db with
              log := ((hd :: tl).foldl (sweepStep fails) db).log
                ++ [LogEvent.autoCancelSummary (hd :: tl).length
                    ((hd :: tl).countP (fun o => !decide (o.orderId ∈ fails)))
                    ((hd :: tl).countP (fun o => decide (o.orderId ∈ fails)))] } := by
        simp only [checkPendingOrders]
        rw [hflt]
        rfl
      rw [hrun]
      rw [hflt] at ho
      exact sweepFold_cancels (hd :: tl) fails o hf db ho
  · intro pid hne
    cases hflt : db.orders.filter (sweepTarget (now - timeoutMinutes * 60 * 1000)) with
    | nil => exact absurd hflt hne
    | cons hd tl =>
      have hrun : checkPendingOrders db now timeoutMinutes fails
          = { (hd :: tl).foldl (sweepStep fails) db with
              log := ((hd :: tl).foldl (sweepStep fails) db).log
                ++ [LogEvent.autoCancelSummary (hd :: tl).length
                    ((hd :: tl).countP (fun o => !decide (o.orderId ∈ fails)))
                    ((hd :: tl).countP (fun o => decide (o.orderId ∈ fails)))] } := by
        simp only [checkPendingOrders]
        rw [hflt]
        rfl
      rw [hrun]
      show findProduct ((hd :: tl).foldl (sweepStep fails) db).products pid = _
      rw [sweepFold_products, findProduct_foldl_restoreStock]
  · intro hne
    cases hflt : db.orders.filter (sweepTarget (now - timeoutMinutes * 60 * 1000)) with
    | nil => exact absurd hflt hne
    | cons hd tl =>
      have hrun : checkPendingOrders db now timeoutMinutes fails
          = { (hd :: tl).foldl (sweepStep fails) db with
              log := ((hd :: tl).foldl (sweepStep fails) db).log
                ++ [LogEvent.autoCancelSummary (hd :: tl).length
                    ((hd :: tl).countP (fun o => !decide (o.orderId ∈ fails)))
                    ((hd :: tl).countP (fun o => decide (o.orderId ∈ fails)))] } := by
        simp only [checkPendingOrders]
        rw [hflt]
        rfl
      rw [hrun]
      show ((hd :: tl).foldl (sweepStep fails) db).log ++ _ = _
      rw [sweepFold_log]

/-- C8 counterexample to the claim as stated: a sweep that selects no
orders (the only order is already Paid) returns early and logs
nothing — in particular no sweep summary. -/
theorem auto_cancel_empty_sweep_logs_nothing :
    checkPendingOrders dbPaid 10000000 30 [] = dbPaid
    ∧ (checkPendingOrders dbPaid 10000000 30 []).log = [] := by
  decide

/-- Witness for C8 at a concrete stale pending order. -/
theorem auto_cancel_sweep_witness :
    pendingPhonePeOrder ∈ dbPending.orders.filter (sweepTarget (1000000000 - 30 * 60 * 1000))
    ∧ cancelledAt "A1" (checkPendingOrders dbPending 1000000000 30 []).orders
    ∧ (checkPendingOrders dbPending 1000000000 30 []).log
        = [LogEvent.autoCancelled "A1", LogEvent.autoCancelSummary 1 1 0]
    ∧ findProduct (checkPendingOrders dbPending 1000000000 30 []).products 1
        = some { id := 1, name := "Apple", price := 100, stock := 7 } := by
  have h := auto_cancel_sweep_effects dbPending 1000000000 30 []
  refine ⟨by decide, ?_, ?_, ?_⟩
  · exact h.2.1 pendingPhonePeOrder (by decide) (by decide)
  · have hl := h.2.2.2 (by decide)
    rw [hl]
    decide
  · have hs := h.2.2.1 1 (by decide)
    rw [hs]
    decide

end RipenRed
